import Mathlib

/-!
# Simulated thermal-zone sensor: admission, retirement and threshold engine

A shallow embedding of `Icaros_KMD_ESP_TZ_Device.c`.  Every routine of the
driver that touches the pending queue or the virtual sensor is transcribed as a
pure function over an explicit device state.  Framework calls (`WdfIoQueue*`,
`WdfRequest*`, `WdfTimer*`, `KeQuerySystemTime`) are modelled by small
functions over that state; the system clock is an explicit argument
(`CurrentTime`).  The routines named after the source take one reading for the
whole operation; their `Clocked` variants take one reading for each place the
source calls `KeQuerySystemTime`, and are proved to agree with them when all
the readings are equal.

Machine integers: `ULONG` values are natural numbers (only compared, never
added); `LARGE_INTEGER.QuadPart` is an `Int` and every arithmetic result on it
is wrapped to the signed 64-bit range by `wrapI64`.
-/

namespace Icaros

/-! ## Status codes -/

abbrev NTSTATUS := Int

def STATUS_SUCCESS : NTSTATUS := 0
def STATUS_NO_MORE_ENTRIES : NTSTATUS := 0x8000001A - 2 ^ 32
def STATUS_BUFFER_TOO_SMALL : NTSTATUS := 0xC0000023 - 2 ^ 32
def STATUS_INVALID_PARAMETER : NTSTATUS := 0xC000000D - 2 ^ 32
def STATUS_INSUFFICIENT_RESOURCES : NTSTATUS := 0xC000009A - 2 ^ 32
def STATUS_NOT_FOUND : NTSTATUS := 0xC0000225 - 2 ^ 32

/-- The macro `NT_SUCCESS(Status)`: the status, as a signed 32-bit value, is non-negative. -/
def NT_SUCCESS (Status : NTSTATUS) : Bool := decide (0 ≤ Status)

/-! ## Machine arithmetic -/

/-- The value `(ULONG)-1`. -/
def ULONG_MAX : Nat := 0xFFFFFFFF

/-- The value `-1LL`, the due time of a request that never expires. -/
def INFINITE_DUE_TIME : Int := -1

/-- The `ULONG` timeout `-1` (`INFINITE`). -/
def INFINITE_TIMEOUT : Nat := 0xFFFFFFFF

/-- Two's-complement wrap of an integer to the signed 64-bit range (`LONGLONG`). -/
def wrapI64 (x : Int) : Int := (x + 2 ^ 63) % 2 ^ 64 - 2 ^ 63

/-- Range of a `LONGLONG`. -/
def IsI64 (x : Int) : Prop := -(2 ^ 63) ≤ x ∧ x < 2 ^ 63

instance (x : Int) : Decidable (IsI64 x) := by unfold IsI64; infer_instance

/-- A value `KeQuerySystemTime` can store: a non-negative count of 100 ns
intervals that fits a `LONGLONG`. -/
def IsSystemTime (t : Int) : Prop := 0 ≤ t ∧ t < 2 ^ 63

instance (t : Int) : Decidable (IsSystemTime t) := by unfold IsSystemTime; infer_instance

/-! ## The satisfaction predicate -/

/-- Routine `CameraESPTZAreConstraintsSatisfied`: whether a request can be retired.
`CurrentTime` is the value `KeQuerySystemTime` stores. -/
def CameraESPTZAreConstraintsSatisfied (Temperature LowerBound UpperBound : Nat)
    (DueTime : Int) (CurrentTime : Int) : Bool :=
  if Temperature ≤ LowerBound ∨ Temperature ≥ UpperBound then
    true
  else if DueTime < 0 then
    -- Negative due times are meaningless, except for the special value -1,
    -- which represents no timeout.
    false
  else if wrapI64 (CurrentTime - DueTime) ≥ 0 then
    -- This request expired in the past.
    true
  else
    false

/-! ## Data model -/

/-- The input structure of a read request (`THERMAL_WAIT_READ`, three `ULONG`s). -/
structure THERMAL_WAIT_READ where
  Timeout : Nat
  LowTemperature : Nat
  HighTemperature : Nat
  deriving DecidableEq, Repr

/-- Size in bytes of `THERMAL_WAIT_READ`. -/
def SIZEOF_THERMAL_WAIT_READ : Nat := 12

/-- Size in bytes of a `ULONG`. -/
def SIZEOF_ULONG : Nat := 4

/-- The per-request context `READ_REQUEST_CONTEXT`. -/
structure READ_REQUEST_CONTEXT where
  ExpirationTime : Int
  HighTemperature : Nat
  LowTemperature : Nat
  deriving DecidableEq, Repr

/-- A framework request object as seen by the read path: its handle, the byte
length and leading `THERMAL_WAIT_READ` of its input buffer, the byte length of
its output buffer, and the context attached to it (written by
`CameraESPTZAddReadRequest` before the request is forwarded to the pending
queue). -/
structure WDFREQUEST where
  Handle : Nat
  InputBufferLength : Nat
  InputBuffer : THERMAL_WAIT_READ
  OutputBufferLength : Nat
  Context : READ_REQUEST_CONTEXT
  deriving DecidableEq, Repr

/-- The request received by `CameraESPTZSetTemperature`: its handle, the byte
length of its input buffer and the `ULONG` stored at the start of that buffer. -/
structure SET_TEMPERATURE_REQUEST where
  Handle : Nat
  InputBufferLength : Nat
  Value : Nat
  deriving DecidableEq, Repr

/-- The virtual sensor (`FDO_DATA.Sensor`). -/
structure SENSOR where
  LowerBound : Nat
  UpperBound : Nat
  Temperature : Nat
  deriving DecidableEq, Repr

/-- Record of one call of `WdfRequestComplete` / `WdfRequestCompleteWithInformation`:
the request completed, its status, the byte count reported and the `ULONG`
written to its output buffer, if any. -/
structure COMPLETION where
  Request : Nat
  Status : NTSTATUS
  Information : Nat
  Output : Option Nat
  deriving DecidableEq, Repr

/-- A timer created by `WdfTimerCreate` and started by `WdfTimerStart` with a
relative timeout in milliseconds.  Its parent object is the device; the driver
keeps no handle to it. -/
structure WDFTIMER where
  TimeoutMs : Nat
  deriving DecidableEq, Repr

/-- The device: the driver's `FDO_DATA` (pending queue and sensor) together
with the part of the framework state the driver acts on (completed requests,
started timers, number of times the interrupt work item was enqueued). -/
structure DEVICE where
  PendingRequestQueue : List WDFREQUEST
  Sensor : SENSOR
  Completed : List COMPLETION
  Timers : List WDFTIMER
  InterruptWorkerEnqueued : Nat
  deriving DecidableEq, Repr

/-- Outcome of the framework allocations made while a request is being queued. -/
structure FRAMEWORK_RESULTS where
  AllocateContextStatus : NTSTATUS
  TimerCreateStatus : NTSTATUS
  ForwardToIoQueueStatus : NTSTATUS
  deriving DecidableEq, Repr

/-! ## Framework calls -/

/-- Framework call `WdfRequestRetrieveInputBuffer`: fails when the input buffer is empty or
shorter than the minimum required size, otherwise yields the buffer length. -/
def WdfRequestRetrieveInputBuffer (InputBufferLength MinimumRequiredSize : Nat) :
    NTSTATUS × Nat :=
  if InputBufferLength = 0 ∨ InputBufferLength < MinimumRequiredSize then
    (STATUS_BUFFER_TOO_SMALL, 0)
  else
    (STATUS_SUCCESS, InputBufferLength)

/-- Framework call `WdfRequestRetrieveOutputBuffer`: fails when the output buffer is empty or
shorter than the minimum required size, otherwise yields the buffer length. -/
def WdfRequestRetrieveOutputBuffer (Request : WDFREQUEST) (MinimumRequiredSize : Nat) :
    NTSTATUS × Nat :=
  if Request.OutputBufferLength = 0 ∨ Request.OutputBufferLength < MinimumRequiredSize then
    (STATUS_BUFFER_TOO_SMALL, 0)
  else
    (STATUS_SUCCESS, Request.OutputBufferLength)

/-- Framework call `WdfRequestCompleteWithInformation`, recording the value stored in the
output buffer before the call. -/
def WdfRequestCompleteWithInformation (dev : DEVICE) (Request : Nat) (Status : NTSTATUS)
    (Information : Nat) (Output : Option Nat) : DEVICE :=
  { dev with Completed := dev.Completed ++ [⟨Request, Status, Information, Output⟩] }

/-- Framework call `WdfRequestComplete`: completes a request with a status and
no information. -/
def WdfRequestComplete (dev : DEVICE) (Request : Nat) (Status : NTSTATUS) : DEVICE :=
  { dev with Completed := dev.Completed ++ [⟨Request, Status, 0, none⟩] }

/-- Framework calls `WdfTimerCreate` (succeeded) and `WdfTimerStart`: a timer
owned by the device is armed with `WDF_REL_TIMEOUT_IN_MS(Timeout)`. -/
def WdfTimerStart (dev : DEVICE) (Timeout : Nat) : DEVICE :=
  { dev with Timers := dev.Timers ++ [⟨Timeout⟩] }

/-- Framework call `WdfRequestForwardToIoQueue` (succeeded): the request joins
the tail of the pending queue. -/
def WdfRequestForwardToIoQueue (dev : DEVICE) (Request : WDFREQUEST) : DEVICE :=
  { dev with PendingRequestQueue := dev.PendingRequestQueue ++ [Request] }

/-- The request following the one with handle `FoundRequest` in the queue. -/
def findRequestAfter : List WDFREQUEST → Nat → NTSTATUS × Option WDFREQUEST
  | [], _ => (STATUS_NOT_FOUND, none)
  | r :: rest, FoundRequest =>
    if r.Handle = FoundRequest then
      match rest with
      | [] => (STATUS_NO_MORE_ENTRIES, none)
      | next :: _ => (STATUS_SUCCESS, some next)
    else
      findRequestAfter rest FoundRequest

/-- Framework call `WdfIoQueueFindRequest` with no file object and no parameters: with a null
`FoundRequest` the head of the queue, otherwise the request after `FoundRequest`;
`STATUS_NO_MORE_ENTRIES` at the end of the queue, `STATUS_NOT_FOUND` when
`FoundRequest` is not in the queue. -/
def WdfIoQueueFindRequest (Queue : List WDFREQUEST) (FoundRequest : Option Nat) :
    NTSTATUS × Option WDFREQUEST :=
  match FoundRequest with
  | none =>
    match Queue with
    | [] => (STATUS_NO_MORE_ENTRIES, none)
    | r :: _ => (STATUS_SUCCESS, some r)
  | some h => findRequestAfter Queue h

/-- Framework call `WdfIoQueueRetrieveFoundRequest`: removes the request with the given handle
from the queue and delivers it; `none` (`STATUS_NOT_FOUND`) when it is not there. -/
def WdfIoQueueRetrieveFoundRequest :
    List WDFREQUEST → Nat → Option (WDFREQUEST × List WDFREQUEST)
  | [], _ => none
  | r :: rest, FoundRequest =>
    if r.Handle = FoundRequest then
      some (r, rest)
    else
      match WdfIoQueueRetrieveFoundRequest rest FoundRequest with
      | none => none
      | some (found, rest1) => some (found, r :: rest1)

/-! ## Driver routines -/

/-- Routine `CameraESPTZReadTemperature`. -/
def CameraESPTZReadTemperature (dev : DEVICE) : Nat :=
  dev.Sensor.Temperature

/-- Routine `CameraESPTZSetVirtualInterruptThresholds`. -/
def CameraESPTZSetVirtualInterruptThresholds (dev : DEVICE) (LowerBound UpperBound : Nat) :
    DEVICE :=
  { dev with Sensor := { dev.Sensor with LowerBound := LowerBound, UpperBound := UpperBound } }

/-- Routine `CameraESPTZTemperatureInterrupt`: enqueues the interrupt work item. -/
def CameraESPTZTemperatureInterrupt (dev : DEVICE) : DEVICE :=
  { dev with InterruptWorkerEnqueued := dev.InterruptWorkerEnqueued + 1 }

/-- Routine `CameraESPTZSetTemperature`. -/
def CameraESPTZSetTemperature (dev : DEVICE) (ReadRequest : SET_TEMPERATURE_REQUEST) :
    DEVICE :=
  let (Status, _) := WdfRequestRetrieveInputBuffer ReadRequest.InputBufferLength 0
  if NT_SUCCESS Status then
    let dev1 : DEVICE := { dev with Sensor := { dev.Sensor with Temperature := ReadRequest.Value } }
    let Interrupt : Bool :=
      decide (dev1.Sensor.Temperature ≤ dev1.Sensor.LowerBound ∨
        dev1.Sensor.Temperature ≥ dev1.Sensor.UpperBound)
    let dev2 := WdfRequestComplete dev1 ReadRequest.Handle Status
    -- Fire the virtual interrupt outside the lock, to avoid any locking issues.
    if Interrupt then CameraESPTZTemperatureInterrupt dev2 else dev2
  else
    WdfRequestCompleteWithInformation dev ReadRequest.Handle Status 0 none

/-- Routine `CameraESPTZCheckQueuedRequest`: retires the request when it is satisfied
or expired, otherwise tightens the two bounds. -/
def CameraESPTZCheckQueuedRequest (dev : DEVICE) (Temperature LowerBound UpperBound : Nat)
    (Request : WDFREQUEST) (CurrentTime : Int) : DEVICE × Nat × Nat :=
  let Context := Request.Context
  if CameraESPTZAreConstraintsSatisfied Temperature Context.LowTemperature
      Context.HighTemperature Context.ExpirationTime CurrentTime then
    match WdfIoQueueRetrieveFoundRequest dev.PendingRequestQueue Request.Handle with
    | none =>
      -- Bail, likely because the request disappeared from the queue.
      (dev, LowerBound, UpperBound)
    | some (RetrievedRequest, Queue) =>
      let dev1 : DEVICE := { dev with PendingRequestQueue := Queue }
      let (Status, Length) := WdfRequestRetrieveOutputBuffer RetrievedRequest SIZEOF_ULONG
      if NT_SUCCESS Status && Length == SIZEOF_ULONG then
        (WdfRequestCompleteWithInformation dev1 RetrievedRequest.Handle Status SIZEOF_ULONG
          (some Temperature), LowerBound, UpperBound)
      else
        -- The request's return buffer is malformed.
        (WdfRequestCompleteWithInformation dev1 RetrievedRequest.Handle
          STATUS_INVALID_PARAMETER 0 none, LowerBound, UpperBound)
  else
    -- The request will remain in the queue. Update the bounds accordingly.
    (dev,
      if LowerBound < Context.LowTemperature then Context.LowTemperature else LowerBound,
      if UpperBound > Context.HighTemperature then Context.HighTemperature else UpperBound)

/-- The `while (NT_SUCCESS(Status))` loop of `CameraESPTZScanPendingQueue`; one
unit of fuel per evaluation of the loop condition. -/
def scanLoop (Temperature : Nat) (CurrentTime : Int) :
    Nat → DEVICE → NTSTATUS → Option WDFREQUEST → Nat → Nat →
      Option (DEVICE × NTSTATUS × Nat × Nat)
  | 0, _, _, _, _, _ => none
  | fuel + 1, dev, Status, CurrentRequest, LowerBound, UpperBound =>
    if NT_SUCCESS Status then
      match CurrentRequest with
      | none => none
      | some LastRequest =>
        -- Walk past the current request before checking it.
        let (Status1, CurrentRequest1) :=
          WdfIoQueueFindRequest dev.PendingRequestQueue (some LastRequest.Handle)
        -- Process the last request.
        let (dev1, LowerBound1, UpperBound1) :=
          CameraESPTZCheckQueuedRequest dev Temperature LowerBound UpperBound LastRequest
            CurrentTime
        if Status1 = STATUS_NOT_FOUND then
          -- LastRequest unexpectedly disappeared from the queue. Start over.
          let (Status2, CurrentRequest2) :=
            WdfIoQueueFindRequest dev1.PendingRequestQueue none
          scanLoop Temperature CurrentTime fuel dev1 Status2 CurrentRequest2 0 ULONG_MAX
        else
          scanLoop Temperature CurrentTime fuel dev1 Status1 CurrentRequest1
            LowerBound1 UpperBound1
    else
      some (dev, Status, LowerBound, UpperBound)

/-- Routine `CameraESPTZScanPendingQueue`: scans the pending queue for retirable
requests and publishes the thresholds of the requests that remain.  The result
is `none` when the fuel does not cover the walk (or a successful find delivered
no request, which the framework never does). -/
def CameraESPTZScanPendingQueue (fuel : Nat) (dev : DEVICE) (CurrentTime : Int) :
    Option (DEVICE × NTSTATUS) :=
  let Temperature := CameraESPTZReadTemperature dev
  -- Prime the walk by finding the first request present.
  let (Status, CurrentRequest) := WdfIoQueueFindRequest dev.PendingRequestQueue none
  match scanLoop Temperature CurrentTime fuel dev Status CurrentRequest 0 ULONG_MAX with
  | none => none
  | some (dev1, Status1, LowerBound, UpperBound) =>
    -- Update the thresholds based on the latest contents of the queue.
    some (CameraESPTZSetVirtualInterruptThresholds dev1 LowerBound UpperBound, Status1)

/-- The expiration time `CameraESPTZAddReadRequest` computes for a submission:
the current system time plus the timeout in 100 ns units, or -1 when the
timeout is `INFINITE`. -/
def requestExpirationTime (ThermalWaitRead : THERMAL_WAIT_READ) (CurrentTime : Int) : Int :=
  if ThermalWaitRead.Timeout ≠ INFINITE_TIMEOUT then
    -- Estimate the system time this request will expire at.
    wrapI64 (CurrentTime + (ThermalWaitRead.Timeout : Int) * 10000)
  else
    -- Value which indicates the request never expires.
    INFINITE_DUE_TIME

/-- Routine `CameraESPTZAddReadRequest`: completes the request at once when it is
already satisfied, otherwise attaches its context, starts its expiry timer (if
it expires), forwards it to the pending queue and rescans the queue. -/
def CameraESPTZAddReadRequest (fuel : Nat) (dev : DEVICE) (ReadRequest : WDFREQUEST)
    (fw : FRAMEWORK_RESULTS) (CurrentTime : Int) : Option DEVICE :=
  let BytesReturned := 0
  let (Status, Length) :=
    WdfRequestRetrieveInputBuffer ReadRequest.InputBufferLength SIZEOF_THERMAL_WAIT_READ
  if !NT_SUCCESS Status || Length != SIZEOF_THERMAL_WAIT_READ then
    -- This request is malformed, bail.
    some (WdfRequestCompleteWithInformation dev ReadRequest.Handle Status BytesReturned none)
  else
    let ThermalWaitRead := ReadRequest.InputBuffer
    let ExpirationTime : Int := requestExpirationTime ThermalWaitRead CurrentTime
    -- Handle the immediate timeout case in the fast path.
    let Temperature := CameraESPTZReadTemperature dev
    if CameraESPTZAreConstraintsSatisfied Temperature ThermalWaitRead.LowTemperature
        ThermalWaitRead.HighTemperature ExpirationTime CurrentTime then
      let (Status1, Length1) := WdfRequestRetrieveOutputBuffer ReadRequest SIZEOF_ULONG
      if NT_SUCCESS Status1 && Length1 == SIZEOF_ULONG then
        some (WdfRequestCompleteWithInformation dev ReadRequest.Handle Status1 SIZEOF_ULONG
          (some Temperature))
      else
        some (WdfRequestCompleteWithInformation dev ReadRequest.Handle
          STATUS_INVALID_PARAMETER BytesReturned none)
    else
      -- Create a context to store request-specific information.
      if !NT_SUCCESS fw.AllocateContextStatus then
        some (WdfRequestCompleteWithInformation dev ReadRequest.Handle
          fw.AllocateContextStatus BytesReturned none)
      else
        let Context : READ_REQUEST_CONTEXT :=
          ⟨ExpirationTime, ThermalWaitRead.HighTemperature, ThermalWaitRead.LowTemperature⟩
        let Request : WDFREQUEST := { ReadRequest with Context := Context }
        if Context.ExpirationTime ≠ INFINITE_DUE_TIME ∧ !NT_SUCCESS fw.TimerCreateStatus then
          some (WdfRequestCompleteWithInformation dev ReadRequest.Handle
            fw.TimerCreateStatus BytesReturned none)
        else
          -- This request eventually expires, create a timer to complete it.
          let dev1 : DEVICE :=
            if Context.ExpirationTime ≠ INFINITE_DUE_TIME then
              WdfTimerStart dev ThermalWaitRead.Timeout
            else dev
          if !NT_SUCCESS fw.ForwardToIoQueueStatus then
            some (WdfRequestCompleteWithInformation dev1 ReadRequest.Handle
              fw.ForwardToIoQueueStatus BytesReturned none)
          else
            let dev2 := WdfRequestForwardToIoQueue dev1 Request
            -- Force a rescan of the queue to update the interrupt thresholds.
            match CameraESPTZScanPendingQueue fuel dev2 CurrentTime with
            | none => none
            | some (dev3, _) => some dev3

/-- Routine `CameraESPTZEvtExpiredRequestTimer`: a request timer expired; scan the queue. -/
def CameraESPTZEvtExpiredRequestTimer (fuel : Nat) (dev : DEVICE) (CurrentTime : Int) :
    Option DEVICE :=
  (CameraESPTZScanPendingQueue fuel dev CurrentTime).map Prod.fst

/-- Routine `CameraESPTZInterruptWorker`: the work item of the virtual interrupt; scan the queue. -/
def CameraESPTZInterruptWorker (fuel : Nat) (dev : DEVICE) (CurrentTime : Int) :
    Option DEVICE :=
  (CameraESPTZScanPendingQueue fuel dev CurrentTime).map Prod.fst

/-- Routine `CameraESPTZCameraOffNotification`: resets the reading and completes the request. -/
def CameraESPTZCameraOffNotification (dev : DEVICE) (Request : Nat) : DEVICE :=
  WdfRequestComplete { dev with Sensor := { dev.Sensor with Temperature := 2940 } } Request
    STATUS_SUCCESS

/-- Routine `CameraESPTZCameraOnNotification`: completes the request. -/
def CameraESPTZCameraOnNotification (dev : DEVICE) (Request : Nat) : DEVICE :=
  WdfRequestComplete dev Request STATUS_SUCCESS

/-! ## Representation invariants and vocabulary of the statements -/

/-- The handles of the queued requests. -/
def queueHandles (Queue : List WDFREQUEST) : List Nat :=
  Queue.map (fun r => r.Handle)

/-- State invariant of the embedding: queued requests are distinct framework
objects, and every `ULONG` field holds a 32-bit value. -/
def ValidDevice (dev : DEVICE) : Prop :=
  (queueHandles dev.PendingRequestQueue).Nodup ∧
  dev.Sensor.Temperature ≤ ULONG_MAX ∧
  ∀ r ∈ dev.PendingRequestQueue,
    r.Context.LowTemperature ≤ ULONG_MAX ∧ r.Context.HighTemperature ≤ ULONG_MAX

instance (dev : DEVICE) : Decidable (ValidDevice dev) := by
  unfold ValidDevice; infer_instance

/-- The satisfaction predicate applied to a queued request. -/
def requestSatisfied (Temperature : Nat) (CurrentTime : Int) (r : WDFREQUEST) : Bool :=
  CameraESPTZAreConstraintsSatisfied Temperature r.Context.LowTemperature
    r.Context.HighTemperature r.Context.ExpirationTime CurrentTime

/-- The completion `CameraESPTZCheckQueuedRequest` records for a retired request. -/
def retireCompletion (Temperature : Nat) (r : WDFREQUEST) : COMPLETION :=
  if r.OutputBufferLength = SIZEOF_ULONG then
    ⟨r.Handle, STATUS_SUCCESS, SIZEOF_ULONG, some Temperature⟩
  else
    ⟨r.Handle, STATUS_INVALID_PARAMETER, 0, none⟩

/-- The requests a scan leaves queued: those the predicate does not hold for. -/
def survivors (Temperature : Nat) (CurrentTime : Int) (Queue : List WDFREQUEST) :
    List WDFREQUEST :=
  Queue.filter (fun r => !requestSatisfied Temperature CurrentTime r)

/-- The requests a scan retires: those the predicate holds for. -/
def retired (Temperature : Nat) (CurrentTime : Int) (Queue : List WDFREQUEST) :
    List WDFREQUEST :=
  Queue.filter (fun r => requestSatisfied Temperature CurrentTime r)

/-- Lower threshold accumulated over a list of surviving requests. -/
def tightenLower (LowerBound : Nat) (Queue : List WDFREQUEST) : Nat :=
  Queue.foldl (fun a r => max a r.Context.LowTemperature) LowerBound

/-- Upper threshold accumulated over a list of surviving requests. -/
def tightenUpper (UpperBound : Nat) (Queue : List WDFREQUEST) : Nat :=
  Queue.foldl (fun a r => min a r.Context.HighTemperature) UpperBound

/-- Functional description of one scan pass at reading `dev.Sensor.Temperature`. -/
def scanned (dev : DEVICE) (CurrentTime : Int) : DEVICE :=
  { dev with
    PendingRequestQueue := survivors dev.Sensor.Temperature CurrentTime dev.PendingRequestQueue
    Completed := dev.Completed ++
      (retired dev.Sensor.Temperature CurrentTime dev.PendingRequestQueue).map
        (retireCompletion dev.Sensor.Temperature)
    Sensor :=
      { dev.Sensor with
        LowerBound := tightenLower 0
          (survivors dev.Sensor.Temperature CurrentTime dev.PendingRequestQueue)
        UpperBound := tightenUpper ULONG_MAX
          (survivors dev.Sensor.Temperature CurrentTime dev.PendingRequestQueue) } }

/-! ## Concrete states used by the scenarios -/

/-- A well-formed queued read request with the given handle, band and due time. -/
def queuedRequest (Handle Low High : Nat) (ExpirationTime : Int) : WDFREQUEST :=
  ⟨Handle, SIZEOF_THERMAL_WAIT_READ, ⟨INFINITE_TIMEOUT, Low, High⟩, SIZEOF_ULONG,
    ⟨ExpirationTime, High, Low⟩⟩

/-- A device at reading 50 with two pending requests: band [10,90] that never
expires and band [30,70] due at time 1000; nothing published yet. -/
def twoPending : DEVICE :=
  ⟨[queuedRequest 1 10 90 INFINITE_DUE_TIME, queuedRequest 2 30 70 1000],
    ⟨0, ULONG_MAX, 50⟩, [], [], 0⟩

/-- A device at reading 50 with an empty pending queue. -/
def idleDevice : DEVICE :=
  ⟨[], ⟨0, ULONG_MAX, 50⟩, [], [], 0⟩

/-- A device at reading 50 whose queue holds requests with unordered bands:
[90,10] (low above high), [60,60] and [20,80]. -/
def invertedPending : DEVICE :=
  ⟨[queuedRequest 1 90 10 INFINITE_DUE_TIME, queuedRequest 2 60 60 INFINITE_DUE_TIME,
      queuedRequest 3 20 80 INFINITE_DUE_TIME],
    ⟨0, ULONG_MAX, 50⟩, [], [], 0⟩

/-- A device at reading 70 with an empty pending queue. -/
def warmDevice : DEVICE :=
  ⟨[], ⟨0, ULONG_MAX, 70⟩, [], [], 0⟩

/-- A well-formed submission: 12-byte input holding (timeout, low, high),
4-byte output buffer, no context attached yet. -/
def submission (Handle Timeout Low High : Nat) : WDFREQUEST :=
  ⟨Handle, SIZEOF_THERMAL_WAIT_READ, ⟨Timeout, Low, High⟩, SIZEOF_ULONG, ⟨0, 0, 0⟩⟩

/-- Every framework allocation succeeds. -/
def allSucceed : FRAMEWORK_RESULTS :=
  ⟨STATUS_SUCCESS, STATUS_SUCCESS, STATUS_SUCCESS⟩

/-- The request as `CameraESPTZAddReadRequest` forwards it to the pending queue:
the submission with (expiration, high, low) stored in its context. -/
def admitted (ReadRequest : WDFREQUEST) (CurrentTime : Int) : WDFREQUEST :=
  { ReadRequest with
    Context := ⟨requestExpirationTime ReadRequest.InputBuffer CurrentTime,
      ReadRequest.InputBuffer.HighTemperature, ReadRequest.InputBuffer.LowTemperature⟩ }

/-- The device just before the rescan of the slow path: the expiry timer started
when the request expires, and the request appended to the pending queue. -/
def enqueued (dev : DEVICE) (ReadRequest : WDFREQUEST) (CurrentTime : Int) : DEVICE :=
  { dev with
    PendingRequestQueue := dev.PendingRequestQueue ++ [admitted ReadRequest CurrentTime]
    Timers :=
      if requestExpirationTime ReadRequest.InputBuffer CurrentTime ≠ INFINITE_DUE_TIME then
        dev.Timers ++ [⟨ReadRequest.InputBuffer.Timeout⟩]
      else dev.Timers }

/-- A queued request with band [60,90] that never expires and an output buffer
of 2 bytes only. -/
def shortOutputRequest : WDFREQUEST :=
  ⟨5, SIZEOF_THERMAL_WAIT_READ, ⟨INFINITE_TIMEOUT, 60, 90⟩, 2, ⟨INFINITE_DUE_TIME, 90, 60⟩⟩

/-- A device at reading 50 whose queue holds the band [10,90] and, behind it,
the request with the 2-byte output buffer (satisfied: 50 <= 60). -/
def malformedPending : DEVICE :=
  ⟨[queuedRequest 1 10 90 INFINITE_DUE_TIME, shortOutputRequest],
    ⟨0, ULONG_MAX, 50⟩, [], [], 0⟩

/-- A device at reading 70 whose queue holds the band [40,60] admitted at time
1000 with timeout 5000 ms, and the timer started for it. -/
def timedPending : DEVICE :=
  ⟨[admitted (submission 7 5000 40 60) 1000], ⟨40, 60, 70⟩, [], [⟨5000⟩], 0⟩

/-- Number of completions recorded for the request with the given handle. -/
def completionsOf (Handle : Nat) (dev : DEVICE) : Nat :=
  dev.Completed.countP (fun c => decide (c.Request = Handle))

/-! ## Lock and interrupt events of the routines -/

/-- The calls of a routine that matter to the lock discipline, in program
order: `WdfWaitLockAcquire` / `WdfWaitLockRelease` on `Sensor.Lock` and on
`QueueLock`, and `WdfWorkItemEnqueue` of the interrupt worker (the virtual
interrupt). -/
inductive LOCK_EVENT where
  | AcquireSensorLock
  | ReleaseSensorLock
  | AcquireQueueLock
  | ReleaseQueueLock
  | RaiseInterrupt
  deriving DecidableEq, Repr

/-- Events of `CameraESPTZReadTemperature`: the reading is taken under `Sensor.Lock`. -/
def CameraESPTZReadTemperatureEvents : List LOCK_EVENT :=
  [.AcquireSensorLock, .ReleaseSensorLock]

/-- Events of `CameraESPTZSetVirtualInterruptThresholds`: the bounds are written
under `Sensor.Lock`. -/
def CameraESPTZSetVirtualInterruptThresholdsEvents : List LOCK_EVENT :=
  [.AcquireSensorLock, .ReleaseSensorLock]

/-- Events of `CameraESPTZTemperatureInterrupt`: the work item is enqueued. -/
def CameraESPTZTemperatureInterruptEvents : List LOCK_EVENT :=
  [.RaiseInterrupt]

/-- Events of `CameraESPTZSetTemperature`: with a retrieved input buffer the
value is stored and compared under `Sensor.Lock`, the lock is released, the
request completed, and only then the interrupt fired. -/
def CameraESPTZSetTemperatureEvents (dev : DEVICE) (ReadRequest : SET_TEMPERATURE_REQUEST) :
    List LOCK_EVENT :=
  let (Status, _) := WdfRequestRetrieveInputBuffer ReadRequest.InputBufferLength 0
  if NT_SUCCESS Status then
    let Interrupt : Bool :=
      decide (ReadRequest.Value ≤ dev.Sensor.LowerBound ∨
        ReadRequest.Value ≥ dev.Sensor.UpperBound)
    [.AcquireSensorLock, .ReleaseSensorLock] ++
      (if Interrupt then CameraESPTZTemperatureInterruptEvents else [])
  else
    []

/-- Events of `CameraESPTZScanPendingQueue`: the reading is taken first and the
thresholds are published last; the walk in between (`WdfIoQueueFindRequest`,
`CameraESPTZCheckQueuedRequest`) takes no lock, so the events do not depend on
the queue.  The routine is entered with `QueueLock` held. -/
def CameraESPTZScanPendingQueueEvents : List LOCK_EVENT :=
  CameraESPTZReadTemperatureEvents ++ CameraESPTZSetVirtualInterruptThresholdsEvents

/-- Events of `CameraESPTZEvtExpiredRequestTimer`. -/
def CameraESPTZEvtExpiredRequestTimerEvents : List LOCK_EVENT :=
  [.AcquireQueueLock] ++ CameraESPTZScanPendingQueueEvents ++ [.ReleaseQueueLock]

/-- Events of `CameraESPTZInterruptWorker`. -/
def CameraESPTZInterruptWorkerEvents : List LOCK_EVENT :=
  [.AcquireQueueLock] ++ CameraESPTZScanPendingQueueEvents ++ [.ReleaseQueueLock]

/-- Events of `CameraESPTZAddReadRequest`: none for a malformed request; the
reading is taken before the fast-path test; on the slow path `QueueLock` is
acquired, held across the allocations and the rescan, and released at
`AddReadRequestEnd` on every exit. -/
def CameraESPTZAddReadRequestEvents (dev : DEVICE) (ReadRequest : WDFREQUEST)
    (fw : FRAMEWORK_RESULTS) (CurrentTime : Int) : List LOCK_EVENT :=
  let (Status, Length) :=
    WdfRequestRetrieveInputBuffer ReadRequest.InputBufferLength SIZEOF_THERMAL_WAIT_READ
  if !NT_SUCCESS Status || Length != SIZEOF_THERMAL_WAIT_READ then
    []
  else
    let ThermalWaitRead := ReadRequest.InputBuffer
    let ExpirationTime : Int := requestExpirationTime ThermalWaitRead CurrentTime
    CameraESPTZReadTemperatureEvents ++
      (if CameraESPTZAreConstraintsSatisfied (CameraESPTZReadTemperature dev)
          ThermalWaitRead.LowTemperature ThermalWaitRead.HighTemperature ExpirationTime
          CurrentTime then
        []
      else
        [.AcquireQueueLock] ++
          (if !NT_SUCCESS fw.AllocateContextStatus then
            []
          else if ExpirationTime ≠ INFINITE_DUE_TIME ∧ !NT_SUCCESS fw.TimerCreateStatus then
            []
          else if !NT_SUCCESS fw.ForwardToIoQueueStatus then
            []
          else
            CameraESPTZScanPendingQueueEvents) ++
          [.ReleaseQueueLock])

/-- The locks a thread holds. -/
structure LOCKS_HELD where
  SensorLock : Bool
  QueueLock : Bool
  deriving DecidableEq, Repr

/-- One event under the lock discipline; `none` when the event breaks it.
`Sensor.Lock` may be acquired whether or not `QueueLock` is held; `QueueLock`
may be acquired, and the interrupt raised, only while `Sensor.Lock` is not
held; a lock is acquired only when free and released only when held, and
`QueueLock` is released only after `Sensor.Lock`. -/
def lockStep (held : LOCKS_HELD) : LOCK_EVENT → Option LOCKS_HELD
  | .AcquireSensorLock =>
    if held.SensorLock then none else some { held with SensorLock := true }
  | .ReleaseSensorLock =>
    if held.SensorLock then some { held with SensorLock := false } else none
  | .AcquireQueueLock =>
    if held.SensorLock || held.QueueLock then none else some { held with QueueLock := true }
  | .ReleaseQueueLock =>
    if held.QueueLock && !held.SensorLock then some { held with QueueLock := false } else none
  | .RaiseInterrupt =>
    if held.SensorLock then none else some held

/-- Runs a sequence of events under the lock discipline from the given held
locks: the locks held at the end, or `none` when some event breaks it. -/
def lockRun : LOCKS_HELD → List LOCK_EVENT → Option LOCKS_HELD
  | held, [] => some held
  | held, e :: rest =>
    match lockStep held e with
    | none => none
    | some held1 => lockRun held1 rest

/-! ## Runs of the device -/

/-- The device as `CameraESPTZCreateDevice` leaves it: the pending queue just
created by `CameraESPTZQueueInitialize` is empty, and
`CameraESPTZInitializeLocalParams` has set the band to [0, 0xFFFFFFFF] and the
reading to 2940. -/
def createdDevice : DEVICE :=
  ⟨[], ⟨0, ULONG_MAX, 2940⟩, [], [], 0⟩

/-- The entry points through which the device is driven afterwards: the four
requests `CameraESPTZEvtIoDeviceControl` dispatches (read 2703504, set
temperature 0x222400, camera on 0x222404, camera off 0x222408; any other code
is forwarded to the I/O target and leaves the device alone), the timer callback
and the interrupt work item. -/
inductive OPERATION where
  | AddReadRequest (ReadRequest : WDFREQUEST) (fw : FRAMEWORK_RESULTS)
  | SetTemperature (ReadRequest : SET_TEMPERATURE_REQUEST)
  | CameraOnNotification (Request : Nat)
  | CameraOffNotification (Request : Nat)
  | ExpiredRequestTimer
  | InterruptWorker
  deriving DecidableEq, Repr

/-- One operation at the given system time. -/
def runOperation (fuel : Nat) (dev : DEVICE) (CurrentTime : Int) : OPERATION → Option DEVICE
  | .AddReadRequest ReadRequest fw => CameraESPTZAddReadRequest fuel dev ReadRequest fw CurrentTime
  | .SetTemperature ReadRequest => some (CameraESPTZSetTemperature dev ReadRequest)
  | .CameraOnNotification Request => some (CameraESPTZCameraOnNotification dev Request)
  | .CameraOffNotification Request => some (CameraESPTZCameraOffNotification dev Request)
  | .ExpiredRequestTimer => CameraESPTZEvtExpiredRequestTimer fuel dev CurrentTime
  | .InterruptWorker => CameraESPTZInterruptWorker fuel dev CurrentTime

/-- A sequence of operations, each with the system time it runs at. -/
def runOperations (fuel : Nat) : DEVICE → List (OPERATION × Int) → Option DEVICE
  | dev, [] => some dev
  | dev, (op, CurrentTime) :: rest =>
    match runOperation fuel dev CurrentTime op with
    | none => none
    | some dev1 => runOperations fuel dev1 rest

/-- Every queued request carries in its context the band it was submitted with,
and that band has low < high. -/
def QueuedBandsOrdered (dev : DEVICE) : Prop :=
  ∀ r ∈ dev.PendingRequestQueue,
    r.Context.LowTemperature < r.Context.HighTemperature ∧
    r.Context.LowTemperature = r.InputBuffer.LowTemperature ∧
    r.Context.HighTemperature = r.InputBuffer.HighTemperature

instance (dev : DEVICE) : Decidable (QueuedBandsOrdered dev) := by
  unfold QueuedBandsOrdered; infer_instance

/-- A run on the created device (reading 2940): the band [2900,3000] is
submitted with no timeout, then the band with low 3000 above high 2900 is
submitted with timeout 5 ms, both at time 1000. -/
def sampleRun : List (OPERATION × Int) :=
  [(.AddReadRequest (submission 7 INFINITE_TIMEOUT 2900 3000) allSucceed, 1000),
    (.AddReadRequest (submission 8 5 3000 2900) allSucceed, 1000)]

/-! ## The routines with one clock reading per call of KeQuerySystemTime -/

/-- The loop of `CameraESPTZScanPendingQueue` when the clock moves during the
walk: the iteration numbered `k` (counted from the start of the pass, restarts
included) checks its request with the reading `Clock k`, the value
`KeQuerySystemTime` stores inside that call of
`CameraESPTZAreConstraintsSatisfied`. -/
def scanLoopClocked (Temperature : Nat) (Clock : Nat → Int) :
    Nat → Nat → DEVICE → NTSTATUS → Option WDFREQUEST → Nat → Nat →
      Option (DEVICE × NTSTATUS × Nat × Nat)
  | 0, _, _, _, _, _, _ => none
  | fuel + 1, k, dev, Status, CurrentRequest, LowerBound, UpperBound =>
    if NT_SUCCESS Status then
      match CurrentRequest with
      | none => none
      | some LastRequest =>
        -- Walk past the current request before checking it.
        let (Status1, CurrentRequest1) :=
          WdfIoQueueFindRequest dev.PendingRequestQueue (some LastRequest.Handle)
        -- Process the last request.
        let (dev1, LowerBound1, UpperBound1) :=
          CameraESPTZCheckQueuedRequest dev Temperature LowerBound UpperBound LastRequest
            (Clock k)
        if Status1 = STATUS_NOT_FOUND then
          -- LastRequest unexpectedly disappeared from the queue. Start over.
          let (Status2, CurrentRequest2) :=
            WdfIoQueueFindRequest dev1.PendingRequestQueue none
          scanLoopClocked Temperature Clock fuel (k + 1) dev1 Status2 CurrentRequest2 0
            ULONG_MAX
        else
          scanLoopClocked Temperature Clock fuel (k + 1) dev1 Status1 CurrentRequest1
            LowerBound1 UpperBound1
    else
      some (dev, Status, LowerBound, UpperBound)

/-- Routine `CameraESPTZScanPendingQueue` with one clock reading per request
checked. -/
def CameraESPTZScanPendingQueueClocked (fuel : Nat) (dev : DEVICE) (Clock : Nat → Int) :
    Option (DEVICE × NTSTATUS) :=
  let Temperature := CameraESPTZReadTemperature dev
  -- Prime the walk by finding the first request present.
  let (Status, CurrentRequest) := WdfIoQueueFindRequest dev.PendingRequestQueue none
  match scanLoopClocked Temperature Clock fuel 0 dev Status CurrentRequest 0 ULONG_MAX with
  | none => none
  | some (dev1, Status1, LowerBound, UpperBound) =>
    -- Update the thresholds based on the latest contents of the queue.
    some (CameraESPTZSetVirtualInterruptThresholds dev1 LowerBound UpperBound, Status1)

/-- Routine `CameraESPTZAddReadRequest` with one clock reading per call of
`KeQuerySystemTime`: `SubmitTime` is the reading the expiration time is
computed from, `TestTime` the reading of the fast-path test, and `ScanClock`
gives the readings of the rescan, one per request it checks. -/
def CameraESPTZAddReadRequestClocked (fuel : Nat) (dev : DEVICE) (ReadRequest : WDFREQUEST)
    (fw : FRAMEWORK_RESULTS) (SubmitTime TestTime : Int) (ScanClock : Nat → Int) :
    Option DEVICE :=
  let BytesReturned := 0
  let (Status, Length) :=
    WdfRequestRetrieveInputBuffer ReadRequest.InputBufferLength SIZEOF_THERMAL_WAIT_READ
  if !NT_SUCCESS Status || Length != SIZEOF_THERMAL_WAIT_READ then
    -- This request is malformed, bail.
    some (WdfRequestCompleteWithInformation dev ReadRequest.Handle Status BytesReturned none)
  else
    let ThermalWaitRead := ReadRequest.InputBuffer
    let ExpirationTime : Int := requestExpirationTime ThermalWaitRead SubmitTime
    -- Handle the immediate timeout case in the fast path.
    let Temperature := CameraESPTZReadTemperature dev
    if CameraESPTZAreConstraintsSatisfied Temperature ThermalWaitRead.LowTemperature
        ThermalWaitRead.HighTemperature ExpirationTime TestTime then
      let (Status1, Length1) := WdfRequestRetrieveOutputBuffer ReadRequest SIZEOF_ULONG
      if NT_SUCCESS Status1 && Length1 == SIZEOF_ULONG then
        some (WdfRequestCompleteWithInformation dev ReadRequest.Handle Status1 SIZEOF_ULONG
          (some Temperature))
      else
        some (WdfRequestCompleteWithInformation dev ReadRequest.Handle
          STATUS_INVALID_PARAMETER BytesReturned none)
    else
      -- Create a context to store request-specific information.
      if !NT_SUCCESS fw.AllocateContextStatus then
        some (WdfRequestCompleteWithInformation dev ReadRequest.Handle
          fw.AllocateContextStatus BytesReturned none)
      else
        let Context : READ_REQUEST_CONTEXT :=
          ⟨ExpirationTime, ThermalWaitRead.HighTemperature, ThermalWaitRead.LowTemperature⟩
        let Request : WDFREQUEST := { ReadRequest with Context := Context }
        if Context.ExpirationTime ≠ INFINITE_DUE_TIME ∧ !NT_SUCCESS fw.TimerCreateStatus then
          some (WdfRequestCompleteWithInformation dev ReadRequest.Handle
            fw.TimerCreateStatus BytesReturned none)
        else
          -- This request eventually expires, create a timer to complete it.
          let dev1 : DEVICE :=
            if Context.ExpirationTime ≠ INFINITE_DUE_TIME then
              WdfTimerStart dev ThermalWaitRead.Timeout
            else dev
          if !NT_SUCCESS fw.ForwardToIoQueueStatus then
            some (WdfRequestCompleteWithInformation dev1 ReadRequest.Handle
              fw.ForwardToIoQueueStatus BytesReturned none)
          else
            let dev2 := WdfRequestForwardToIoQueue dev1 Request
            -- Force a rescan of the queue to update the interrupt thresholds.
            match CameraESPTZScanPendingQueueClocked fuel dev2 ScanClock with
            | none => none
            | some (dev3, _) => some dev3

theorem findRequestAfter_append (pre : List WDFREQUEST) (c : WDFREQUEST)
    (rest : List WDFREQUEST) (hpre : ∀ p ∈ pre, p.Handle ≠ c.Handle) :
    findRequestAfter (pre ++ c :: rest) c.Handle =
      match rest with
      | [] => (STATUS_NO_MORE_ENTRIES, none)
      | next :: _ => (STATUS_SUCCESS, some next) := by
  induction pre with
  | nil => simp [findRequestAfter]
  | cons p pre ih =>
    have hp : p.Handle ≠ c.Handle := hpre p (List.mem_cons_self _ _)
    have ih1 := ih (fun q hq => hpre q (List.mem_cons_of_mem _ hq))
    simp only [List.cons_append, findRequestAfter, if_neg hp]
    exact ih1

theorem retrieveFoundRequest_append (pre : List WDFREQUEST) (c : WDFREQUEST)
    (rest : List WDFREQUEST) (hpre : ∀ p ∈ pre, p.Handle ≠ c.Handle) :
    WdfIoQueueRetrieveFoundRequest (pre ++ c :: rest) c.Handle = some (c, pre ++ rest) := by
  induction pre with
  | nil => simp [WdfIoQueueRetrieveFoundRequest]
  | cons p pre ih =>
    have hp : p.Handle ≠ c.Handle := hpre p (List.mem_cons_self _ _)
    have ih1 := ih (fun q hq => hpre q (List.mem_cons_of_mem _ hq))
    rw [List.cons_append, WdfIoQueueRetrieveFoundRequest, if_neg hp, ih1]
    rfl

theorem nodup_prefix_ne (pre : List WDFREQUEST) (c : WDFREQUEST) (rest : List WDFREQUEST)
    (hnd : (queueHandles (pre ++ c :: rest)).Nodup) : ∀ p ∈ pre, p.Handle ≠ c.Handle := by
  intro p hp heq
  unfold queueHandles at hnd
  rw [List.map_append, List.map_cons] at hnd
  have hdisj := (List.nodup_append.mp hnd).2.2
  exact hdisj (List.mem_map_of_mem _ hp) (by rw [heq]; exact List.mem_cons_self _ _)

/-! ## One step of the scan -/

theorem check_satisfied (dev : DEVICE) (T lb ub : Nat) (c : WDFREQUEST) (now : Int)
    (pre rest : List WDFREQUEST) (hq : dev.PendingRequestQueue = pre ++ c :: rest)
    (hpre : ∀ p ∈ pre, p.Handle ≠ c.Handle) (hs : requestSatisfied T now c = true) :
    CameraESPTZCheckQueuedRequest dev T lb ub c now =
      ({ dev with
          PendingRequestQueue := pre ++ rest
          Completed := dev.Completed ++ [retireCompletion T c] }, lb, ub) := by
  unfold requestSatisfied at hs
  unfold CameraESPTZCheckQueuedRequest
  simp only [hs, if_true, hq, retrieveFoundRequest_append pre c rest hpre]
  unfold WdfRequestRetrieveOutputBuffer retireCompletion WdfRequestCompleteWithInformation
  unfold SIZEOF_ULONG
  by_cases h4 : c.OutputBufferLength = 4
  · simp [h4, NT_SUCCESS, STATUS_SUCCESS]
  · by_cases hlt : c.OutputBufferLength = 0 ∨ c.OutputBufferLength < 4
    · simp [h4, hlt, NT_SUCCESS, STATUS_BUFFER_TOO_SMALL]
    · simp [h4, hlt, NT_SUCCESS, STATUS_SUCCESS]

theorem check_unsatisfied (dev : DEVICE) (T lb ub : Nat) (c : WDFREQUEST) (now : Int)
    (hs : requestSatisfied T now c = false) :
    CameraESPTZCheckQueuedRequest dev T lb ub c now =
      (dev, max lb c.Context.LowTemperature, min ub c.Context.HighTemperature) := by
  unfold requestSatisfied at hs
  unfold CameraESPTZCheckQueuedRequest
  simp only [hs]
  have h1 : (if lb < c.Context.LowTemperature then c.Context.LowTemperature else lb) =
      max lb c.Context.LowTemperature := by
    by_cases h : lb < c.Context.LowTemperature
    · rw [if_pos h, max_eq_right (Nat.le_of_lt h)]
    · rw [if_neg h, max_eq_left (Nat.le_of_not_lt h)]
  have h2 : (if ub > c.Context.HighTemperature then c.Context.HighTemperature else ub) =
      min ub c.Context.HighTemperature := by
    by_cases h : ub > c.Context.HighTemperature
    · rw [if_pos h, min_eq_right (Nat.le_of_lt h)]
    · rw [if_neg h, min_eq_left (Nat.le_of_not_lt h)]
  simp [h1, h2]

/-! ## The walk over the queue -/

theorem scanLoop_exit (T : Nat) (now : Int) (fuel : Nat) (dev : DEVICE)
    (cur : Option WDFREQUEST) (lb ub : Nat) :
    scanLoop T now (fuel + 1) dev STATUS_NO_MORE_ENTRIES cur lb ub =
      some (dev, STATUS_NO_MORE_ENTRIES, lb, ub) := by
  simp [scanLoop, NT_SUCCESS, STATUS_NO_MORE_ENTRIES]

theorem survivors_cons_satisfied (T : Nat) (now : Int) (c : WDFREQUEST)
    (rest : List WDFREQUEST) (hs : requestSatisfied T now c = true) :
    survivors T now (c :: rest) = survivors T now rest ∧
      retired T now (c :: rest) = c :: retired T now rest := by
  simp [survivors, retired, hs]

theorem survivors_cons_unsatisfied (T : Nat) (now : Int) (c : WDFREQUEST)
    (rest : List WDFREQUEST) (hs : requestSatisfied T now c = false) :
    survivors T now (c :: rest) = c :: survivors T now rest ∧
      retired T now (c :: rest) = retired T now rest := by
  simp [survivors, retired, hs]

theorem scanLoop_walk (T : Nat) (now : Int) :
    ∀ (rest pre : List WDFREQUEST) (c : WDFREQUEST) (dev : DEVICE) (lb ub fuel : Nat),
      (queueHandles (pre ++ c :: rest)).Nodup →
      dev.PendingRequestQueue = pre ++ c :: rest →
      rest.length + 2 ≤ fuel →
      scanLoop T now fuel dev STATUS_SUCCESS (some c) lb ub =
        some ({ dev with
                PendingRequestQueue := pre ++ survivors T now (c :: rest)
                Completed := dev.Completed ++
                  (retired T now (c :: rest)).map (retireCompletion T) },
              STATUS_NO_MORE_ENTRIES,
              tightenLower lb (survivors T now (c :: rest)),
              tightenUpper ub (survivors T now (c :: rest))) := by
  intro rest
  induction rest with
  | nil =>
    intro pre c dev lb ub fuel hnd hq hfuel
    obtain ⟨f, rfl⟩ : ∃ f, fuel = f + 2 := ⟨fuel - 2, by simp at hfuel; omega⟩
    have hpre := nodup_prefix_ne pre c [] hnd
    have hfind := findRequestAfter_append pre c [] hpre
    cases hs : requestSatisfied T now c with
    | true =>
      have hc := check_satisfied dev T lb ub c now pre [] hq hpre hs
      obtain ⟨h1, h2⟩ := survivors_cons_satisfied T now c [] hs
      rw [h1, h2]
      simp only [scanLoop, WdfIoQueueFindRequest, hq, hfind, hc]
      simp [NT_SUCCESS, STATUS_SUCCESS, STATUS_NO_MORE_ENTRIES, STATUS_NOT_FOUND, survivors,
        retired, tightenLower, tightenUpper]
    | false =>
      have hc := check_unsatisfied dev T lb ub c now hs
      obtain ⟨h1, h2⟩ := survivors_cons_unsatisfied T now c [] hs
      rw [h1, h2]
      simp only [scanLoop, WdfIoQueueFindRequest, hq, hfind, hc]
      simp [NT_SUCCESS, STATUS_SUCCESS, STATUS_NO_MORE_ENTRIES, STATUS_NOT_FOUND, survivors,
        retired, tightenLower, tightenUpper, ← hq]
  | cons n rest ih =>
    intro pre c dev lb ub fuel hnd hq hfuel
    obtain ⟨f, rfl⟩ : ∃ f, fuel = f + 1 := ⟨fuel - 1, by simp at hfuel; omega⟩
    have hf : rest.length + 2 ≤ f := by simp at hfuel; omega
    have hpre := nodup_prefix_ne pre c (n :: rest) hnd
    have hfind := findRequestAfter_append pre c (n :: rest) hpre
    cases hs : requestSatisfied T now c with
    | true =>
      have hc := check_satisfied dev T lb ub c now pre (n :: rest) hq hpre hs
      obtain ⟨h1, h2⟩ := survivors_cons_satisfied T now c (n :: rest) hs
      rw [h1, h2]
      have hnd1 : (queueHandles (pre ++ n :: rest)).Nodup := by
        unfold queueHandles at hnd ⊢
        refine hnd.sublist ?_
        refine List.Sublist.map _ ?_
        exact List.Sublist.append (List.Sublist.refl pre) (List.sublist_cons_self c _)
      have hrec := ih pre n
        { dev with
          PendingRequestQueue := pre ++ n :: rest
          Completed := dev.Completed ++ [retireCompletion T c] } lb ub f hnd1 rfl hf
      simp only [scanLoop, WdfIoQueueFindRequest, hq, hfind, hc]
      simp only [NT_SUCCESS, STATUS_SUCCESS, STATUS_NOT_FOUND]
      simp only [STATUS_SUCCESS] at hrec
      simp [hrec]
    | false =>
      have hc := check_unsatisfied dev T lb ub c now hs
      obtain ⟨h1, h2⟩ := survivors_cons_unsatisfied T now c (n :: rest) hs
      rw [h1, h2]
      have hnd1 : (queueHandles ((pre ++ [c]) ++ n :: rest)).Nodup := by
        simpa using hnd
      have hq1 : dev.PendingRequestQueue = (pre ++ [c]) ++ n :: rest := by
        simpa using hq
      have hrec := ih (pre ++ [c]) n dev (max lb c.Context.LowTemperature)
        (min ub c.Context.HighTemperature) f hnd1 hq1 hf
      simp only [scanLoop, WdfIoQueueFindRequest, hq, hfind, hc]
      simp only [NT_SUCCESS, STATUS_SUCCESS, STATUS_NOT_FOUND]
      simp only [STATUS_SUCCESS] at hrec
      simp [hrec, tightenLower, tightenUpper, ← hq]

/-- With distinct handles and fuel beyond the queue length, a scan pass returns,
and it returns the functional description `scanned`. -/
theorem scan_eq (fuel : Nat) (dev : DEVICE) (now : Int)
    (hnd : (queueHandles dev.PendingRequestQueue).Nodup)
    (hfuel : dev.PendingRequestQueue.length < fuel) :
    CameraESPTZScanPendingQueue fuel dev now = some (scanned dev now, STATUS_NO_MORE_ENTRIES) := by
  unfold CameraESPTZScanPendingQueue CameraESPTZReadTemperature
  cases hq : dev.PendingRequestQueue with
  | nil =>
    obtain ⟨f, rfl⟩ : ∃ f, fuel = f + 1 := ⟨fuel - 1, by omega⟩
    simp only [WdfIoQueueFindRequest, scanLoop_exit]
    simp [scanned, CameraESPTZSetVirtualInterruptThresholds, survivors, retired, hq,
      tightenLower, tightenUpper]
  | cons c rest =>
    have hnd1 : (queueHandles ([] ++ c :: rest)).Nodup := by simpa [hq] using hnd
    have hfuel1 : rest.length + 2 ≤ fuel := by rw [hq] at hfuel; simp at hfuel; omega
    have hwalk := scanLoop_walk dev.Sensor.Temperature now rest [] c dev 0 ULONG_MAX fuel
      hnd1 (by simpa using hq) hfuel1
    simp only [WdfIoQueueFindRequest]
    simp only [STATUS_SUCCESS] at hwalk ⊢
    rw [hwalk]
    simp [scanned, CameraESPTZSetVirtualInterruptThresholds, hq]

/-! ## The accumulated thresholds -/

theorem tightenLower_ge_init (l : List WDFREQUEST) : ∀ lb, lb ≤ tightenLower lb l := by
  induction l with
  | nil => intro lb; simp [tightenLower]
  | cons r l ih =>
    intro lb
    have h := ih (max lb r.Context.LowTemperature)
    simp only [tightenLower, List.foldl_cons] at h ⊢
    exact le_trans (le_max_left _ _) h

theorem tightenLower_ge_mem (l : List WDFREQUEST) :
    ∀ lb, ∀ r ∈ l, r.Context.LowTemperature ≤ tightenLower lb l := by
  induction l with
  | nil => intro lb r hr; simp at hr
  | cons a l ih =>
    intro lb r hr
    rcases List.mem_cons.mp hr with rfl | hmem
    · have h := tightenLower_ge_init l (max lb r.Context.LowTemperature)
      simp only [tightenLower, List.foldl_cons] at h ⊢
      exact le_trans (le_max_right _ _) h
    · have h := ih (max lb a.Context.LowTemperature) r hmem
      simpa only [tightenLower, List.foldl_cons] using h

theorem tightenLower_attained (l : List WDFREQUEST) :
    ∀ lb, tightenLower lb l = lb ∨ ∃ r ∈ l, r.Context.LowTemperature = tightenLower lb l := by
  induction l with
  | nil => intro lb; left; simp [tightenLower]
  | cons a l ih =>
    intro lb
    have hstep : tightenLower lb (a :: l) = tightenLower (max lb a.Context.LowTemperature) l := by
      simp [tightenLower]
    rw [hstep]
    rcases ih (max lb a.Context.LowTemperature) with h | ⟨r, hr, hval⟩
    · rcases max_choice lb a.Context.LowTemperature with hm | hm
      · left; rw [h, hm]
      · right; exact ⟨a, List.mem_cons_self _ _, by rw [h, hm]⟩
    · right; exact ⟨r, List.mem_cons_of_mem _ hr, hval⟩

theorem tightenUpper_le_init (l : List WDFREQUEST) : ∀ ub, tightenUpper ub l ≤ ub := by
  induction l with
  | nil => intro ub; simp [tightenUpper]
  | cons r l ih =>
    intro ub
    have h := ih (min ub r.Context.HighTemperature)
    simp only [tightenUpper, List.foldl_cons] at h ⊢
    exact le_trans h (min_le_left _ _)

theorem tightenUpper_le_mem (l : List WDFREQUEST) :
    ∀ ub, ∀ r ∈ l, tightenUpper ub l ≤ r.Context.HighTemperature := by
  induction l with
  | nil => intro ub r hr; simp at hr
  | cons a l ih =>
    intro ub r hr
    rcases List.mem_cons.mp hr with rfl | hmem
    · have h := tightenUpper_le_init l (min ub r.Context.HighTemperature)
      simp only [tightenUpper, List.foldl_cons] at h ⊢
      exact le_trans h (min_le_right _ _)
    · have h := ih (min ub a.Context.HighTemperature) r hmem
      simpa only [tightenUpper, List.foldl_cons] using h

theorem tightenUpper_attained (l : List WDFREQUEST) :
    ∀ ub, tightenUpper ub l = ub ∨ ∃ r ∈ l, r.Context.HighTemperature = tightenUpper ub l := by
  induction l with
  | nil => intro ub; left; simp [tightenUpper]
  | cons a l ih =>
    intro ub
    have hstep : tightenUpper ub (a :: l) = tightenUpper (min ub a.Context.HighTemperature) l := by
      simp [tightenUpper]
    rw [hstep]
    rcases ih (min ub a.Context.HighTemperature) with h | ⟨r, hr, hval⟩
    · rcases min_choice ub a.Context.HighTemperature with hm | hm
      · left; rw [h, hm]
      · right; exact ⟨a, List.mem_cons_self _ _, by rw [h, hm]⟩
    · right; exact ⟨r, List.mem_cons_of_mem _ hr, hval⟩

/-- A lower threshold that starts at 0 over a non-empty list is one of the lows. -/
theorem tightenLower_zero_attained (l : List WDFREQUEST) (hne : l ≠ []) :
    ∃ r ∈ l, r.Context.LowTemperature = tightenLower 0 l := by
  rcases tightenLower_attained l 0 with h | h
  · obtain ⟨a, ha⟩ := List.exists_mem_of_ne_nil l hne
    refine ⟨a, ha, ?_⟩
    have := tightenLower_ge_mem l 0 a ha
    omega
  · exact h

/-- An upper threshold that starts at `ULONG_MAX` over a non-empty list of
32-bit highs is one of the highs. -/
theorem tightenUpper_max_attained (l : List WDFREQUEST) (hne : l ≠ [])
    (h32 : ∀ r ∈ l, r.Context.HighTemperature ≤ ULONG_MAX) :
    ∃ r ∈ l, r.Context.HighTemperature = tightenUpper ULONG_MAX l := by
  rcases tightenUpper_attained l ULONG_MAX with h | h
  · obtain ⟨a, ha⟩ := List.exists_mem_of_ne_nil l hne
    refine ⟨a, ha, ?_⟩
    have h1 := tightenUpper_le_mem l ULONG_MAX a ha
    have h2 := h32 a ha
    omega
  · exact h

/-! ## The surviving requests -/

theorem mem_survivors (T : Nat) (now : Int) (q : List WDFREQUEST) (r : WDFREQUEST) :
    r ∈ survivors T now q ↔ r ∈ q ∧ requestSatisfied T now r = false := by
  simp [survivors]

theorem mem_retired (T : Nat) (now : Int) (q : List WDFREQUEST) (r : WDFREQUEST) :
    r ∈ retired T now q ↔ r ∈ q ∧ requestSatisfied T now r = true := by
  simp [retired]

/-- A request the predicate does not hold for has the reading strictly inside its band. -/
theorem unsatisfied_inside (T : Nat) (now : Int) (r : WDFREQUEST)
    (h : requestSatisfied T now r = false) :
    r.Context.LowTemperature < T ∧ T < r.Context.HighTemperature := by
  unfold requestSatisfied CameraESPTZAreConstraintsSatisfied at h
  by_cases hb : T ≤ r.Context.LowTemperature ∨ T ≥ r.Context.HighTemperature
  · simp [hb] at h
  · omega

theorem survivors_idem (T : Nat) (now : Int) (q : List WDFREQUEST) :
    survivors T now (survivors T now q) = survivors T now q := by
  simp [survivors, List.filter_filter]

theorem retired_survivors (T : Nat) (now : Int) (q : List WDFREQUEST) :
    retired T now (survivors T now q) = [] := by
  simp [survivors, retired, List.filter_filter]

theorem survivors_nodup (T : Nat) (now : Int) (q : List WDFREQUEST)
    (h : (queueHandles q).Nodup) : (queueHandles (survivors T now q)).Nodup := by
  unfold queueHandles survivors at *
  exact h.sublist (List.Sublist.map _ (List.filter_sublist q))

/-- Both thresholds of the survivors enclose the reading. -/
theorem survivors_enclose (T : Nat) (now : Int) (q : List WDFREQUEST) (hT : T ≤ ULONG_MAX) :
    tightenLower 0 (survivors T now q) ≤ T ∧ T ≤ tightenUpper ULONG_MAX (survivors T now q) := by
  constructor
  · rcases tightenLower_attained (survivors T now q) 0 with h | ⟨r, hr, hval⟩
    · omega
    · have := unsatisfied_inside T now r ((mem_survivors T now q r).mp hr).2
      omega
  · rcases tightenUpper_attained (survivors T now q) ULONG_MAX with h | ⟨r, hr, hval⟩
    · omega
    · have := unsatisfied_inside T now r ((mem_survivors T now q r).mp hr).2
      omega

/-! ## The thresholds enclose the reading, whatever the queue -/

theorem check_bounds (dev : DEVICE) (T lb ub : Nat) (r : WDFREQUEST) (now : Int)
    (h : lb ≤ T ∧ T ≤ ub) :
    (CameraESPTZCheckQueuedRequest dev T lb ub r now).2.1 ≤ T ∧
      T ≤ (CameraESPTZCheckQueuedRequest dev T lb ub r now).2.2 := by
  cases hs : requestSatisfied T now r with
  | false =>
    rw [check_unsatisfied dev T lb ub r now hs]
    have hin := unsatisfied_inside T now r hs
    simp only [max_le_iff, le_min_iff]
    omega
  | true =>
    unfold requestSatisfied at hs
    unfold CameraESPTZCheckQueuedRequest
    simp only [hs, if_true]
    cases WdfIoQueueRetrieveFoundRequest dev.PendingRequestQueue r.Handle with
    | none => exact h
    | some found =>
      obtain ⟨found1, queue1⟩ := found
      dsimp only
      split <;> exact h

theorem scanLoop_bounds (T : Nat) (now : Int) (hT : T ≤ ULONG_MAX) :
    ∀ (fuel : Nat) (dev : DEVICE) (Status : NTSTATUS) (cur : Option WDFREQUEST) (lb ub : Nat)
      (dev1 : DEVICE) (Status1 : NTSTATUS) (lb1 ub1 : Nat),
      lb ≤ T ∧ T ≤ ub →
      scanLoop T now fuel dev Status cur lb ub = some (dev1, Status1, lb1, ub1) →
      lb1 ≤ T ∧ T ≤ ub1 := by
  intro fuel
  induction fuel with
  | zero =>
    intro dev Status cur lb ub dev1 Status1 lb1 ub1 _ hrun
    simp [scanLoop] at hrun
  | succ fuel ih =>
    intro dev Status cur lb ub dev1 Status1 lb1 ub1 hb hrun
    unfold scanLoop at hrun
    by_cases hsucc : NT_SUCCESS Status = true
    · rw [if_pos hsucc] at hrun
      cases cur with
      | none => simp at hrun
      | some last =>
        have hcb := check_bounds dev T lb ub last now hb
        dsimp only at hrun
        split at hrun
        · exact ih _ _ _ _ _ _ _ _ _ ⟨Nat.zero_le _, hT⟩ hrun
        · exact ih _ _ _ _ _ _ _ _ _ hcb hrun
    · rw [if_neg hsucc] at hrun
      simp only [Option.some.injEq, Prod.mk.injEq] at hrun
      obtain ⟨-, -, rfl, rfl⟩ := hrun
      exact hb

/-! ## The satisfaction predicate: claims C1 and C2 -/

theorem wrapI64_of_range (x : Int) (h1 : -(2 ^ 63) ≤ x) (h2 : x < 2 ^ 63) : wrapI64 x = x := by
  unfold wrapI64
  have h : (x + 2 ^ 63) % 2 ^ 64 = x + 2 ^ 63 :=
    Int.emod_eq_of_lt (by omega) (by omega)
  omega

/-- With a non-negative due time and a system time, the predicate holds exactly
when the band is crossed or the due time has been reached. -/
theorem satisfied_iff_of_nonneg (r low high : Nat) (d now : Int) (hd : 0 ≤ d)
    (hd63 : d < 2 ^ 63) (hnow : IsSystemTime now) :
    CameraESPTZAreConstraintsSatisfied r low high d now = true ↔
      (r ≤ low ∨ r ≥ high) ∨ d ≤ now := by
  obtain ⟨hn0, hn63⟩ := hnow
  have hw : wrapI64 (now - d) = now - d := wrapI64_of_range _ (by omega) (by omega)
  unfold CameraESPTZAreConstraintsSatisfied
  rw [hw]
  by_cases hb : r ≤ low ∨ r ≥ high
  · simp [hb]
  · have hneg : ¬ d < 0 := by omega
    by_cases ht : d ≤ now
    · have : now - d ≥ 0 := by omega
      simp [hb, hneg, this, ht]
    · have : ¬ now - d ≥ 0 := by omega
      simp only [if_neg hb, if_neg hneg, if_neg this]
      simp [hb, ht]

/-- With a negative due time the predicate is the band test alone. -/
theorem satisfied_of_neg (r low high : Nat) (d now : Int) (hd : d < 0) :
    CameraESPTZAreConstraintsSatisfied r low high d now = decide (r ≤ low ∨ r ≥ high) := by
  unfold CameraESPTZAreConstraintsSatisfied
  by_cases hb : r ≤ low ∨ r ≥ high
  · simp [hb]
  · simp only [if_neg hb, if_pos hd]
    simp [hb]

/-- C1 (as stated, refuted): at reading 50 inside the band [40,60], due time -2
(not the sentinel -1) and current time 0 >= -2, the predicate is false although
the claimed right-hand side holds. -/
theorem C1_counterexample :
    CameraESPTZAreConstraintsSatisfied 50 40 60 (-2) 0 = false ∧
      ((50 ≤ 40 ∨ 50 ≥ 60) ∨ ((-2 : Int) ≠ INFINITE_DUE_TIME ∧ (0 : Int) ≥ -2)) := by
  decide

/-- C1 (amended): for every reading, band, 64-bit due time `d` and system time
`now`, CameraESPTZAreConstraintsSatisfied returns true exactly when the band is
crossed (r <= low or r >= high) or the due time is non-negative and reached
(0 <= d and now >= d); and for the sentinel due time -1 and every current time
`t` the result equals (r <= low || r >= high). -/
theorem C1_satisfied_iff (r low high : Nat) (d now t : Int) (hd : IsI64 d)
    (hnow : IsSystemTime now) :
    (CameraESPTZAreConstraintsSatisfied r low high d now = true ↔
      (r ≤ low ∨ r ≥ high) ∨ (0 ≤ d ∧ d ≤ now)) ∧
    CameraESPTZAreConstraintsSatisfied r low high INFINITE_DUE_TIME t =
      decide (r ≤ low ∨ r ≥ high) := by
  refine ⟨?_, satisfied_of_neg r low high INFINITE_DUE_TIME t (by decide)⟩
  by_cases h0 : 0 ≤ d
  · rw [satisfied_iff_of_nonneg r low high d now h0 hd.2 hnow]
    simp [h0]
  · rw [satisfied_of_neg r low high d now (by omega)]
    simp [h0]

/-- Witness of C1: due time 1000 reached at system time 2000, reading 50 inside [40,60]. -/
theorem C1_satisfied_iff_witness :
    IsI64 1000 ∧ IsSystemTime 2000 ∧
      CameraESPTZAreConstraintsSatisfied 50 40 60 1000 2000 = true :=
  ⟨by decide, by decide,
    (C1_satisfied_iff 50 40 60 1000 2000 0 (by decide) (by decide)).1.mpr
      (Or.inr ⟨by decide, by decide⟩)⟩

/-- C2 (as stated, refuted): due time -5 is not the infinite sentinel and the
current time 100 is past it, yet the predicate is false for reading 50 inside
the band [40,60]. -/
theorem C2_counterexample :
    (-5 : Int) ≠ INFINITE_DUE_TIME ∧ (100 : Int) ≥ -5 ∧
      CameraESPTZAreConstraintsSatisfied 50 40 60 (-5) 100 = false := by
  decide

/-- C2 (amended): for every non-negative due time `d` and every system time `t`
with t >= d, CameraESPTZAreConstraintsSatisfied returns true for every reading
and every band, including readings strictly inside the band. -/
theorem C2_expiry_dominates (r low high : Nat) (d t : Int) (hd : 0 ≤ d) (ht : d ≤ t)
    (ht63 : t < 2 ^ 63) :
    CameraESPTZAreConstraintsSatisfied r low high d t = true :=
  (satisfied_iff_of_nonneg r low high d t hd (by omega) ⟨by omega, ht63⟩).mpr (Or.inr ht)

/-- Witness of C2: due time 1000 reached at time 1000, reading 50 inside [40,60]. -/
theorem C2_expiry_dominates_witness :
    CameraESPTZAreConstraintsSatisfied 50 40 60 1000 1000 = true :=
  C2_expiry_dominates 50 40 60 1000 1000 (by decide) (by decide) (by decide)

/-! ## The temperature update -/

/-- With a non-empty input buffer, `CameraESPTZSetTemperature` stores the
value, completes the request with success and enqueues the interrupt work item
exactly when the value is outside the published band. -/
theorem setTemperature_eq (dev : DEVICE) (req : SET_TEMPERATURE_REQUEST)
    (hlen : req.InputBufferLength ≠ 0) :
    CameraESPTZSetTemperature dev req =
      { dev with
        Sensor := { dev.Sensor with Temperature := req.Value }
        Completed := dev.Completed ++ [⟨req.Handle, STATUS_SUCCESS, 0, none⟩]
        InterruptWorkerEnqueued := dev.InterruptWorkerEnqueued +
          (if req.Value ≤ dev.Sensor.LowerBound ∨ req.Value ≥ dev.Sensor.UpperBound
            then 1 else 0) } := by
  unfold CameraESPTZSetTemperature WdfRequestRetrieveInputBuffer
  by_cases hc : req.Value ≤ dev.Sensor.LowerBound ∨ req.Value ≥ dev.Sensor.UpperBound
  · simp [hlen, hc, NT_SUCCESS, STATUS_SUCCESS, WdfRequestComplete,
      CameraESPTZTemperatureInterrupt]
  · simp [hlen, hc, NT_SUCCESS, STATUS_SUCCESS, WdfRequestComplete,
      CameraESPTZTemperatureInterrupt]

/-! ## The scanner: claims C3, C4, C5, C9 and C10 -/

/-- C3: after a scan pass (distinct queued requests, fuel beyond the queue
length) the published LowerBound is the maximum of LowTemperature over the
requests that remain queued and the published UpperBound is the minimum of
HighTemperature over them, and the band is [0, 0xFFFFFFFF] when none remains;
with [10,90] and [30,70] pending at reading 50 the scan publishes [30,70], and
the next scan, at the time the [30,70] request is due, retires it and
publishes [10,90]. -/
theorem C3_scan_publishes_tightest_band (fuel : Nat) (dev : DEVICE) (now : Int)
    (hv : ValidDevice dev) (hfuel : dev.PendingRequestQueue.length < fuel) :
    (∃ dev1 Status, CameraESPTZScanPendingQueue fuel dev now = some (dev1, Status) ∧
      (dev1.PendingRequestQueue = [] →
        dev1.Sensor.LowerBound = 0 ∧ dev1.Sensor.UpperBound = 0xFFFFFFFF) ∧
      (dev1.PendingRequestQueue ≠ [] →
        IsGreatest {x | ∃ r ∈ dev1.PendingRequestQueue, r.Context.LowTemperature = x}
          dev1.Sensor.LowerBound ∧
        IsLeast {x | ∃ r ∈ dev1.PendingRequestQueue, r.Context.HighTemperature = x}
          dev1.Sensor.UpperBound)) ∧
    (∃ dev1 Status1 dev2 Status2,
      CameraESPTZScanPendingQueue 3 twoPending 500 = some (dev1, Status1) ∧
      dev1.PendingRequestQueue = twoPending.PendingRequestQueue ∧
      dev1.Sensor.LowerBound = 30 ∧ dev1.Sensor.UpperBound = 70 ∧
      CameraESPTZScanPendingQueue 3 dev1 1000 = some (dev2, Status2) ∧
      dev2.PendingRequestQueue = [queuedRequest 1 10 90 INFINITE_DUE_TIME] ∧
      dev2.Sensor.LowerBound = 10 ∧ dev2.Sensor.UpperBound = 90) := by
  obtain ⟨hnd, hT, h32⟩ := hv
  constructor
  · refine ⟨scanned dev now, STATUS_NO_MORE_ENTRIES, scan_eq fuel dev now hnd hfuel, ?_, ?_⟩
    · intro hempty
      have hq : survivors dev.Sensor.Temperature now dev.PendingRequestQueue = [] := hempty
      simp [scanned, hq, tightenLower, tightenUpper, ULONG_MAX]
    · intro hne
      have hq : survivors dev.Sensor.Temperature now dev.PendingRequestQueue ≠ [] := hne
      have h32s : ∀ r ∈ survivors dev.Sensor.Temperature now dev.PendingRequestQueue,
          r.Context.HighTemperature ≤ ULONG_MAX := fun r hr =>
        (h32 r ((mem_survivors _ _ _ r).mp hr).1).2
      constructor
      · constructor
        · exact tightenLower_zero_attained _ hq
        · rintro x ⟨r, hr, rfl⟩
          exact tightenLower_ge_mem _ 0 r hr
      · constructor
        · exact tightenUpper_max_attained _ hq h32s
        · rintro x ⟨r, hr, rfl⟩
          exact tightenUpper_le_mem _ ULONG_MAX r hr
  · exact ⟨⟨[queuedRequest 1 10 90 INFINITE_DUE_TIME, queuedRequest 2 30 70 1000],
        ⟨30, 70, 50⟩, [], [], 0⟩, STATUS_NO_MORE_ENTRIES,
      ⟨[queuedRequest 1 10 90 INFINITE_DUE_TIME], ⟨10, 90, 50⟩,
        [⟨2, STATUS_SUCCESS, 4, some 50⟩], [], 0⟩, STATUS_NO_MORE_ENTRIES,
      by decide, by decide, rfl, rfl, by decide, rfl, rfl, rfl⟩

/-- Witness of C3: the two-request queue scanned at time 500. -/
theorem C3_scan_publishes_tightest_band_witness :
    ValidDevice twoPending ∧ twoPending.PendingRequestQueue.length < 3 ∧
      ∃ dev1 Status, CameraESPTZScanPendingQueue 3 twoPending 500 = some (dev1, Status) :=
  ⟨by decide, by decide,
    let ⟨dev1, Status, h, _⟩ :=
      (C3_scan_publishes_tightest_band 3 twoPending 500 (by decide) (by decide)).1
    ⟨dev1, Status, h⟩⟩

/-- C4: one scan pass at reading T partitions the queue by the satisfaction
predicate: the queue afterwards is the original queue filtered to the requests
the predicate does not hold for (unchanged, in their original order, nothing
added); every request the predicate holds for is removed and completed, in
queue order, with STATUS_SUCCESS, 4 bytes and output T when its output buffer
is 4 bytes long. -/
theorem C4_scan_partitions_queue (fuel : Nat) (dev : DEVICE) (now : Int)
    (hv : ValidDevice dev) (hfuel : dev.PendingRequestQueue.length < fuel) :
    ∃ dev1 Status, CameraESPTZScanPendingQueue fuel dev now = some (dev1, Status) ∧
      dev1.PendingRequestQueue = dev.PendingRequestQueue.filter
        (fun r => !CameraESPTZAreConstraintsSatisfied dev.Sensor.Temperature
          r.Context.LowTemperature r.Context.HighTemperature r.Context.ExpirationTime now) ∧
      dev1.Completed = dev.Completed ++
        (dev.PendingRequestQueue.filter
          (fun r => CameraESPTZAreConstraintsSatisfied dev.Sensor.Temperature
            r.Context.LowTemperature r.Context.HighTemperature r.Context.ExpirationTime
            now)).map (retireCompletion dev.Sensor.Temperature) ∧
      (∀ r ∈ dev.PendingRequestQueue,
        CameraESPTZAreConstraintsSatisfied dev.Sensor.Temperature r.Context.LowTemperature
          r.Context.HighTemperature r.Context.ExpirationTime now = true →
        r ∉ dev1.PendingRequestQueue ∧
        r.Handle ∉ queueHandles dev1.PendingRequestQueue ∧
        (r.OutputBufferLength = 4 →
          (⟨r.Handle, STATUS_SUCCESS, 4, some dev.Sensor.Temperature⟩ : COMPLETION) ∈
            dev1.Completed)) ∧
      (∀ r ∈ dev.PendingRequestQueue,
        CameraESPTZAreConstraintsSatisfied dev.Sensor.Temperature r.Context.LowTemperature
          r.Context.HighTemperature r.Context.ExpirationTime now = false →
        r ∈ dev1.PendingRequestQueue) ∧
      (∀ r ∈ dev1.PendingRequestQueue, r ∈ dev.PendingRequestQueue) ∧
      dev1.PendingRequestQueue.Sublist dev.PendingRequestQueue := by
  obtain ⟨hnd, -, -⟩ := hv
  refine ⟨scanned dev now, STATUS_NO_MORE_ENTRIES, scan_eq fuel dev now hnd hfuel,
    rfl, rfl, ?_, ?_, ?_, ?_⟩
  · intro r hr hs
    have hsat : requestSatisfied dev.Sensor.Temperature now r = true := hs
    refine ⟨?_, ?_, ?_⟩
    · intro hmem
      have hmem1 : r ∈ survivors dev.Sensor.Temperature now dev.PendingRequestQueue := hmem
      have := ((mem_survivors _ _ _ r).mp hmem1).2
      rw [hsat] at this
      exact Bool.noConfusion this
    · intro hmem
      have hmem1 : r.Handle ∈
          queueHandles (survivors dev.Sensor.Temperature now dev.PendingRequestQueue) := hmem
      unfold queueHandles at hmem1 hnd
      obtain ⟨r1, hr1, hh⟩ := List.mem_map.mp hmem1
      obtain ⟨hr1q, hr1s⟩ := (mem_survivors _ _ _ r1).mp hr1
      have heq : r1 = r := List.inj_on_of_nodup_map hnd hr1q hr hh
      rw [heq, hsat] at hr1s
      exact Bool.noConfusion hr1s
    · intro h4
      have hret : r ∈ retired dev.Sensor.Temperature now dev.PendingRequestQueue :=
        (mem_retired _ _ _ r).mpr ⟨hr, hsat⟩
      have hc : retireCompletion dev.Sensor.Temperature r =
          (⟨r.Handle, STATUS_SUCCESS, 4, some dev.Sensor.Temperature⟩ : COMPLETION) := by
        simp [retireCompletion, SIZEOF_ULONG, h4]
      show _ ∈ dev.Completed ++ (retired dev.Sensor.Temperature now
        dev.PendingRequestQueue).map (retireCompletion dev.Sensor.Temperature)
      rw [← hc]
      exact List.mem_append_right _ (List.mem_map_of_mem _ hret)
  · intro r hr hs
    exact (mem_survivors _ _ _ r).mpr ⟨hr, hs⟩
  · intro r hr
    have hmem1 : r ∈ survivors dev.Sensor.Temperature now dev.PendingRequestQueue := hr
    exact ((mem_survivors _ _ _ r).mp hmem1).1
  · exact List.filter_sublist _

/-- Witness of C4: at time 1000 the [30,70] request is retired with the reading 50 and the [10,90] request stays. -/
theorem C4_scan_partitions_queue_witness :
    ValidDevice twoPending ∧
      ∃ dev1 Status, CameraESPTZScanPendingQueue 3 twoPending 1000 = some (dev1, Status) ∧
        dev1.PendingRequestQueue = [queuedRequest 1 10 90 INFINITE_DUE_TIME] ∧
        dev1.Completed = [⟨2, STATUS_SUCCESS, 4, some 50⟩] :=
  ⟨by decide,
    let ⟨dev1, Status, h, hq, hc, _⟩ :=
      C4_scan_partitions_queue 3 twoPending 1000 (by decide) (by decide)
    ⟨dev1, Status, h, by rw [hq]; decide, by rw [hc]; decide⟩⟩

/-- C5: in the state left by a scan pass with at least one request still
queued, for every new reading v the crossing test of CameraESPTZSetTemperature
(v <= Sensor.LowerBound || v >= Sensor.UpperBound, the condition under which it
enqueues the interrupt work item) holds if and only if some queued request has
v <= LowTemperature or v >= HighTemperature. -/
theorem C5_published_band_crossing_iff (fuel : Nat) (dev : DEVICE) (now : Int) (v h : Nat)
    (hv : ValidDevice dev) (hfuel : dev.PendingRequestQueue.length < fuel) :
    ∃ dev1 Status, CameraESPTZScanPendingQueue fuel dev now = some (dev1, Status) ∧
      (dev1.PendingRequestQueue ≠ [] →
        ((v ≤ dev1.Sensor.LowerBound ∨ v ≥ dev1.Sensor.UpperBound) ↔
          ∃ r ∈ dev1.PendingRequestQueue,
            v ≤ r.Context.LowTemperature ∨ v ≥ r.Context.HighTemperature) ∧
        ((CameraESPTZSetTemperature dev1 ⟨h, SIZEOF_ULONG, v⟩).InterruptWorkerEnqueued =
            dev1.InterruptWorkerEnqueued + 1 ↔
          ∃ r ∈ dev1.PendingRequestQueue,
            v ≤ r.Context.LowTemperature ∨ v ≥ r.Context.HighTemperature)) := by
  obtain ⟨hnd, hT, h32⟩ := hv
  refine ⟨scanned dev now, STATUS_NO_MORE_ENTRIES, scan_eq fuel dev now hnd hfuel, ?_⟩
  intro hne
  have hq : survivors dev.Sensor.Temperature now dev.PendingRequestQueue ≠ [] := hne
  have h32s : ∀ r ∈ survivors dev.Sensor.Temperature now dev.PendingRequestQueue,
      r.Context.HighTemperature ≤ ULONG_MAX := fun r hr =>
    (h32 r ((mem_survivors _ _ _ r).mp hr).1).2
  have hiff : (v ≤ (scanned dev now).Sensor.LowerBound ∨
      v ≥ (scanned dev now).Sensor.UpperBound) ↔
      ∃ r ∈ (scanned dev now).PendingRequestQueue,
        v ≤ r.Context.LowTemperature ∨ v ≥ r.Context.HighTemperature := by
    constructor
    · rintro (hlo | hhi)
      · obtain ⟨r, hr, hval⟩ := tightenLower_zero_attained _ hq
        refine ⟨r, hr, Or.inl ?_⟩
        have : v ≤ tightenLower 0
            (survivors dev.Sensor.Temperature now dev.PendingRequestQueue) := hlo
        omega
      · obtain ⟨r, hr, hval⟩ := tightenUpper_max_attained _ hq h32s
        refine ⟨r, hr, Or.inr ?_⟩
        have : v ≥ tightenUpper ULONG_MAX
            (survivors dev.Sensor.Temperature now dev.PendingRequestQueue) := hhi
        omega
    · rintro ⟨r, hr, hlo | hhi⟩
      · left
        have hr1 : r ∈ survivors dev.Sensor.Temperature now dev.PendingRequestQueue := hr
        have := tightenLower_ge_mem _ 0 r hr1
        show v ≤ tightenLower 0 (survivors dev.Sensor.Temperature now dev.PendingRequestQueue)
        omega
      · right
        have hr1 : r ∈ survivors dev.Sensor.Temperature now dev.PendingRequestQueue := hr
        have := tightenUpper_le_mem _ ULONG_MAX r hr1
        show v ≥ tightenUpper ULONG_MAX
          (survivors dev.Sensor.Temperature now dev.PendingRequestQueue)
        omega
  refine ⟨hiff, ?_⟩
  have hlen : (⟨h, SIZEOF_ULONG, v⟩ : SET_TEMPERATURE_REQUEST).InputBufferLength ≠ 0 := by
    simp [SIZEOF_ULONG]
  rw [← hiff, setTemperature_eq _ _ hlen]
  by_cases hc : v ≤ (scanned dev now).Sensor.LowerBound ∨ v ≥ (scanned dev now).Sensor.UpperBound
  · simp [hc]
  · simp [hc]

/-- Witness of C5: after the scan publishes [30,70], the reading 75 crosses the band and the interrupt work item is enqueued. -/
theorem C5_published_band_crossing_iff_witness :
    ValidDevice twoPending ∧
      ∃ dev1 Status, CameraESPTZScanPendingQueue 3 twoPending 500 = some (dev1, Status) ∧
        (CameraESPTZSetTemperature dev1 ⟨9, SIZEOF_ULONG, 75⟩).InterruptWorkerEnqueued =
          dev1.InterruptWorkerEnqueued + 1 :=
  ⟨by decide,
    let ⟨dev1, Status, h, hband⟩ :=
      C5_published_band_crossing_iff 3 twoPending 500 75 9 (by decide) (by decide)
    have hq : dev1.PendingRequestQueue = twoPending.PendingRequestQueue := by
      have h1 : CameraESPTZScanPendingQueue 3 twoPending 500 =
          some (⟨twoPending.PendingRequestQueue, ⟨30, 70, 50⟩, [], [], 0⟩,
            STATUS_NO_MORE_ENTRIES) := by decide
      rw [h1] at h
      have h2 := (Prod.mk.inj (Option.some.inj h)).1
      rw [← h2]
    ⟨dev1, Status, h,
      (hband (by rw [hq]; decide)).2.mpr
        ⟨queuedRequest 2 30 70 1000, by rw [hq]; decide, Or.inr (by decide)⟩⟩⟩

/-- C9: after every scan pass, from any pending queue whatever (any low/high
values, any handles), any 32-bit reading and any current time, the published
band satisfies LowerBound <= UpperBound; and the pass does return when the
queued requests are distinct and the fuel exceeds the queue length. -/
theorem C9_published_band_ordered (fuel : Nat) (dev : DEVICE) (now : Int)
    (hT : dev.Sensor.Temperature ≤ ULONG_MAX) :
    (∀ dev1 Status, CameraESPTZScanPendingQueue fuel dev now = some (dev1, Status) →
      dev1.Sensor.LowerBound ≤ dev1.Sensor.UpperBound) ∧
    ((queueHandles dev.PendingRequestQueue).Nodup → dev.PendingRequestQueue.length < fuel →
      ∃ dev1 Status, CameraESPTZScanPendingQueue fuel dev now = some (dev1, Status) ∧
        dev1.Sensor.LowerBound ≤ dev1.Sensor.UpperBound) := by
  have hall : ∀ dev1 Status, CameraESPTZScanPendingQueue fuel dev now = some (dev1, Status) →
      dev1.Sensor.LowerBound ≤ dev1.Sensor.UpperBound := by
    intro dev1 Status hrun
    unfold CameraESPTZScanPendingQueue CameraESPTZReadTemperature at hrun
    dsimp only at hrun
    cases hloop : scanLoop dev.Sensor.Temperature now fuel dev
        (WdfIoQueueFindRequest dev.PendingRequestQueue none).1
        (WdfIoQueueFindRequest dev.PendingRequestQueue none).2 0 ULONG_MAX with
    | none => simp [hloop] at hrun
    | some res =>
      obtain ⟨dev2, Status2, lb, ub⟩ := res
      have hb := scanLoop_bounds dev.Sensor.Temperature now hT fuel dev _ _ 0 ULONG_MAX
        dev2 Status2 lb ub ⟨Nat.zero_le _, hT⟩ hloop
      simp only [hloop, Option.some.injEq, Prod.mk.injEq] at hrun
      obtain ⟨rfl, -⟩ := hrun
      show lb ≤ ub
      omega
  refine ⟨hall, ?_⟩
  intro hnd hfuel
  exact ⟨scanned dev now, STATUS_NO_MORE_ENTRIES, scan_eq fuel dev now hnd hfuel,
    hall _ _ (scan_eq fuel dev now hnd hfuel)⟩

/-- Witness of C9: a queue holding the bands [90,10], [60,60] and [20,80]. -/
theorem C9_published_band_ordered_witness :
    ValidDevice invertedPending ∧
      ∃ dev1 Status, CameraESPTZScanPendingQueue 4 invertedPending 0 = some (dev1, Status) ∧
        dev1.Sensor.LowerBound ≤ dev1.Sensor.UpperBound :=
  ⟨by decide, (C9_published_band_ordered 4 invertedPending 0 (by decide)).2
    (by decide) (by decide)⟩

/-- C10: the scan is idempotent: a second pass run right after the first with
the same reading and the same current time completes no request and leaves the
pending queue and the published band as the first pass left them. -/
theorem C10_scan_idempotent (fuel : Nat) (dev : DEVICE) (now : Int)
    (hv : ValidDevice dev) (hfuel : dev.PendingRequestQueue.length < fuel) :
    ∃ dev1 Status1 dev2 Status2,
      CameraESPTZScanPendingQueue fuel dev now = some (dev1, Status1) ∧
      CameraESPTZScanPendingQueue fuel dev1 now = some (dev2, Status2) ∧
      dev2.Completed = dev1.Completed ∧
      dev2.PendingRequestQueue = dev1.PendingRequestQueue ∧
      dev2.Sensor.LowerBound = dev1.Sensor.LowerBound ∧
      dev2.Sensor.UpperBound = dev1.Sensor.UpperBound ∧
      dev2 = dev1 := by
  obtain ⟨hnd, -, -⟩ := hv
  have hnd1 : (queueHandles (scanned dev now).PendingRequestQueue).Nodup :=
    survivors_nodup _ _ _ hnd
  have hlen : (scanned dev now).PendingRequestQueue.length < fuel := by
    have : (survivors dev.Sensor.Temperature now dev.PendingRequestQueue).length ≤
        dev.PendingRequestQueue.length := List.length_filter_le _ _
    show (survivors dev.Sensor.Temperature now dev.PendingRequestQueue).length < fuel
    omega
  have hidem : scanned (scanned dev now) now = scanned dev now := by
    simp [scanned, survivors_idem, retired_survivors]
  refine ⟨scanned dev now, STATUS_NO_MORE_ENTRIES, scanned (scanned dev now) now,
    STATUS_NO_MORE_ENTRIES, scan_eq fuel dev now hnd hfuel,
    scan_eq fuel (scanned dev now) now hnd1 hlen, ?_, ?_, ?_, ?_, hidem⟩ <;> rw [hidem]

/-- Witness of C10: two scans of the two-request queue at time 1000. -/
theorem C10_scan_idempotent_witness :
    ValidDevice twoPending ∧
      ∃ dev1 Status1 dev2 Status2,
        CameraESPTZScanPendingQueue 3 twoPending 1000 = some (dev1, Status1) ∧
        CameraESPTZScanPendingQueue 3 dev1 1000 = some (dev2, Status2) ∧
        dev2.Completed = dev1.Completed :=
  ⟨by decide,
    let ⟨dev1, Status1, dev2, Status2, h1, h2, hc, _⟩ :=
      C10_scan_idempotent 3 twoPending 1000 (by decide) (by decide)
    ⟨dev1, Status1, dev2, Status2, h1, h2, hc⟩⟩

/-! ## The slow path of admission -/

/-- A well-formed, unsatisfied submission whose allocations succeed is queued
and the queue rescanned. -/
theorem addReadRequest_slow_path (fuel : Nat) (dev : DEVICE) (req : WDFREQUEST)
    (fw : FRAMEWORK_RESULTS) (now : Int)
    (hin : req.InputBufferLength = SIZEOF_THERMAL_WAIT_READ)
    (hunsat : CameraESPTZAreConstraintsSatisfied dev.Sensor.Temperature
      req.InputBuffer.LowTemperature req.InputBuffer.HighTemperature
      (requestExpirationTime req.InputBuffer now) now = false)
    (hctx : NT_SUCCESS fw.AllocateContextStatus = true)
    (htimer : NT_SUCCESS fw.TimerCreateStatus = true)
    (hfwd : NT_SUCCESS fw.ForwardToIoQueueStatus = true) :
    CameraESPTZAddReadRequest fuel dev req fw now =
      (CameraESPTZScanPendingQueue fuel (enqueued dev req now) now).map Prod.fst := by
  have hmap : ∀ x : Option (DEVICE × NTSTATUS),
      (match x with
        | none => none
        | some (dev3, _) => some dev3) = x.map Prod.fst := by
    intro x
    cases x <;> rfl
  unfold CameraESPTZAddReadRequest WdfRequestRetrieveInputBuffer CameraESPTZReadTemperature
  simp only [hin, hunsat, hctx, htimer, hfwd, hmap]
  by_cases hexp : requestExpirationTime req.InputBuffer now = INFINITE_DUE_TIME
  · simp [SIZEOF_THERMAL_WAIT_READ, enqueued, admitted, hexp, NT_SUCCESS, STATUS_SUCCESS,
      WdfTimerStart, WdfRequestForwardToIoQueue]
    simp [SIZEOF_THERMAL_WAIT_READ] at hin
    simp [hin]
  · simp [SIZEOF_THERMAL_WAIT_READ, enqueued, admitted, hexp, NT_SUCCESS, STATUS_SUCCESS,
      WdfTimerStart, WdfRequestForwardToIoQueue]
    simp [SIZEOF_THERMAL_WAIT_READ] at hin
    simp [hin]

theorem retireCompletion_request (T : Nat) (r : WDFREQUEST) :
    (retireCompletion T r).Request = r.Handle := by
  unfold retireCompletion
  split <;> rfl

theorem admitted_unsatisfied (dev : DEVICE) (req : WDFREQUEST) (now : Int)
    (hunsat : CameraESPTZAreConstraintsSatisfied dev.Sensor.Temperature
      req.InputBuffer.LowTemperature req.InputBuffer.HighTemperature
      (requestExpirationTime req.InputBuffer now) now = false) :
    requestSatisfied dev.Sensor.Temperature now (admitted req now) = false := hunsat

theorem survivors_append_unsatisfied (T : Nat) (now : Int) (q : List WDFREQUEST)
    (a : WDFREQUEST) (ha : requestSatisfied T now a = false) :
    survivors T now (q ++ [a]) = survivors T now q ++ [a] ∧
      retired T now (q ++ [a]) = retired T now q := by
  simp [survivors, retired, List.filter_append, ha]

/-! ## Admission and temperature update: claims C6, C7 and C8 -/

/-- C6: a well-formed submission (12-byte input, 4-byte output buffer) for which
the satisfaction predicate holds on the current reading T and the freshly
computed deadline is completed at once with STATUS_SUCCESS, 4 bytes and output
value T; the pending queue, the timers and the sensor (reading and published
band) are unchanged. -/
theorem C6_fast_path_completes (fuel : Nat) (dev : DEVICE) (req : WDFREQUEST)
    (fw : FRAMEWORK_RESULTS) (now : Int)
    (hin : req.InputBufferLength = SIZEOF_THERMAL_WAIT_READ)
    (hout : req.OutputBufferLength = SIZEOF_ULONG)
    (hsat : CameraESPTZAreConstraintsSatisfied dev.Sensor.Temperature
      req.InputBuffer.LowTemperature req.InputBuffer.HighTemperature
      (requestExpirationTime req.InputBuffer now) now = true) :
    ∃ dev1, CameraESPTZAddReadRequest fuel dev req fw now = some dev1 ∧
      dev1.Completed = dev.Completed ++
        [⟨req.Handle, STATUS_SUCCESS, 4, some dev.Sensor.Temperature⟩] ∧
      dev1.PendingRequestQueue = dev.PendingRequestQueue ∧
      dev1.Timers = dev.Timers ∧
      dev1.Sensor = dev.Sensor ∧
      dev1.InterruptWorkerEnqueued = dev.InterruptWorkerEnqueued := by
  refine ⟨{ dev with Completed := dev.Completed ++
    [⟨req.Handle, STATUS_SUCCESS, 4, some dev.Sensor.Temperature⟩] }, ?_, rfl, rfl, rfl, rfl, rfl⟩
  unfold CameraESPTZAddReadRequest WdfRequestRetrieveInputBuffer WdfRequestRetrieveOutputBuffer
    CameraESPTZReadTemperature
  simp only [hin, hout, hsat]
  simp [SIZEOF_THERMAL_WAIT_READ, SIZEOF_ULONG, NT_SUCCESS, STATUS_SUCCESS,
    WdfRequestCompleteWithInformation]

/-- Witness of C6: reading 70 with band [40,60] is completed at once with 70. -/
theorem C6_fast_path_completes_witness :
    ∃ dev1, CameraESPTZAddReadRequest 1 warmDevice (submission 7 INFINITE_TIMEOUT 40 60)
        allSucceed 1000 = some dev1 ∧
      dev1.Completed = [⟨7, STATUS_SUCCESS, 4, some 70⟩] ∧
      dev1.PendingRequestQueue = [] :=
  let ⟨dev1, h, hc, hq, _⟩ :=
    C6_fast_path_completes 1 warmDevice (submission 7 INFINITE_TIMEOUT 40 60) allSucceed 1000
      (by decide) (by decide) (by decide)
  ⟨dev1, h, by rw [hc]; decide, by rw [hq]; decide⟩

/-- C8: with a valid input buffer holding the value v, CameraESPTZSetTemperature
stores v as Sensor.Temperature and enqueues the interrupt work item if and only
if v <= Sensor.LowerBound or v >= Sensor.UpperBound for the bounds published
before the call; it leaves both bounds, the pending queue and the timers
unchanged and completes its own request with success. -/
theorem C8_set_temperature (dev : DEVICE) (req : SET_TEMPERATURE_REQUEST)
    (hlen : SIZEOF_ULONG ≤ req.InputBufferLength) :
    (CameraESPTZSetTemperature dev req).Sensor.Temperature = req.Value ∧
    ((CameraESPTZSetTemperature dev req).InterruptWorkerEnqueued =
        dev.InterruptWorkerEnqueued + 1 ↔
      (req.Value ≤ dev.Sensor.LowerBound ∨ req.Value ≥ dev.Sensor.UpperBound)) ∧
    ((CameraESPTZSetTemperature dev req).InterruptWorkerEnqueued = dev.InterruptWorkerEnqueued ↔
      ¬ (req.Value ≤ dev.Sensor.LowerBound ∨ req.Value ≥ dev.Sensor.UpperBound)) ∧
    (CameraESPTZSetTemperature dev req).Sensor.LowerBound = dev.Sensor.LowerBound ∧
    (CameraESPTZSetTemperature dev req).Sensor.UpperBound = dev.Sensor.UpperBound ∧
    (CameraESPTZSetTemperature dev req).PendingRequestQueue = dev.PendingRequestQueue ∧
    (CameraESPTZSetTemperature dev req).Timers = dev.Timers ∧
    (CameraESPTZSetTemperature dev req).Completed =
      dev.Completed ++ [⟨req.Handle, STATUS_SUCCESS, 0, none⟩] := by
  have hne : req.InputBufferLength ≠ 0 := by
    unfold SIZEOF_ULONG at hlen
    omega
  rw [setTemperature_eq dev req hne]
  by_cases hc : req.Value ≤ dev.Sensor.LowerBound ∨ req.Value ≥ dev.Sensor.UpperBound
  · simp [hc]
  · simp [hc]

/-- Witness of C8: the value 75 is stored as the reading. -/
theorem C8_set_temperature_witness :
    (CameraESPTZSetTemperature
        ⟨twoPending.PendingRequestQueue, ⟨30, 70, 50⟩, [], [], 0⟩ ⟨9, 4, 75⟩).Sensor.Temperature
      = 75 :=
  (C8_set_temperature ⟨twoPending.PendingRequestQueue, ⟨30, 70, 50⟩, [], [], 0⟩ ⟨9, 4, 75⟩
    (by decide)).1

/-! ## Admission on the fast path: claims C11 and C12 -/

/-- A band with low >= high is crossed by every reading. -/
theorem satisfied_of_inverted (r low high : Nat) (d now : Int) (h : high ≤ low) :
    CameraESPTZAreConstraintsSatisfied r low high d now = true := by
  unfold CameraESPTZAreConstraintsSatisfied
  have hb : r ≤ low ∨ r ≥ high := by omega
  simp [hb]

/-- A submission with a 12-byte input buffer for which the predicate holds is
completed at once, with the completion a retired request gets. -/
theorem addReadRequest_fast_path (fuel : Nat) (dev : DEVICE) (req : WDFREQUEST)
    (fw : FRAMEWORK_RESULTS) (now : Int)
    (hin : req.InputBufferLength = SIZEOF_THERMAL_WAIT_READ)
    (hsat : CameraESPTZAreConstraintsSatisfied dev.Sensor.Temperature
      req.InputBuffer.LowTemperature req.InputBuffer.HighTemperature
      (requestExpirationTime req.InputBuffer now) now = true) :
    CameraESPTZAddReadRequest fuel dev req fw now =
      some { dev with
        Completed := dev.Completed ++ [retireCompletion dev.Sensor.Temperature req] } := by
  unfold CameraESPTZAddReadRequest WdfRequestRetrieveInputBuffer WdfRequestRetrieveOutputBuffer
    CameraESPTZReadTemperature retireCompletion
  simp only [hin, hsat]
  unfold SIZEOF_THERMAL_WAIT_READ SIZEOF_ULONG
  by_cases h4 : req.OutputBufferLength = 4
  · simp [h4, NT_SUCCESS, STATUS_SUCCESS, WdfRequestCompleteWithInformation]
  · by_cases hlt : req.OutputBufferLength = 0 ∨ req.OutputBufferLength < 4
    · simp [h4, hlt, NT_SUCCESS, STATUS_SUCCESS, STATUS_BUFFER_TOO_SMALL,
        WdfRequestCompleteWithInformation]
    · simp [h4, hlt, NT_SUCCESS, STATUS_SUCCESS, WdfRequestCompleteWithInformation]

/-- C11 (as stated, refuted): at reading 50 the submission with band low 60,
high 40 (low > high), infinite timeout and well-formed buffers is not rejected:
it is completed with STATUS_SUCCESS, 4 bytes and the reading 50. -/
theorem C11_counterexample :
    (submission 7 INFINITE_TIMEOUT 60 40).InputBuffer.LowTemperature >
      (submission 7 INFINITE_TIMEOUT 60 40).InputBuffer.HighTemperature ∧
    CameraESPTZAddReadRequest 1 idleDevice (submission 7 INFINITE_TIMEOUT 60 40) allSucceed
      1000 = some ⟨[], ⟨0, ULONG_MAX, 50⟩, [⟨7, STATUS_SUCCESS, 4, some 50⟩], [], 0⟩ ∧
    NT_SUCCESS STATUS_SUCCESS = true := by
  decide

/-- C11 (amended): a submission with a 12-byte input buffer whose band has
low > high is, whatever the reading and timeout, not rejected but completed at
once on the fast path: with STATUS_SUCCESS, 4 bytes and the current reading
when its output buffer is 4 bytes long, with STATUS_INVALID_PARAMETER and 0
bytes otherwise; the pending queue, the timers and the sensor (reading and
published band) are unchanged. -/
theorem C11_inverted_band_fast_path (fuel : Nat) (dev : DEVICE) (req : WDFREQUEST)
    (fw : FRAMEWORK_RESULTS) (now : Int)
    (hin : req.InputBufferLength = SIZEOF_THERMAL_WAIT_READ)
    (hband : req.InputBuffer.LowTemperature > req.InputBuffer.HighTemperature) :
    ∃ dev1, CameraESPTZAddReadRequest fuel dev req fw now = some dev1 ∧
      (req.OutputBufferLength = 4 →
        dev1.Completed = dev.Completed ++
          [⟨req.Handle, STATUS_SUCCESS, 4, some dev.Sensor.Temperature⟩]) ∧
      (req.OutputBufferLength ≠ 4 →
        dev1.Completed = dev.Completed ++ [⟨req.Handle, STATUS_INVALID_PARAMETER, 0, none⟩]) ∧
      dev1.PendingRequestQueue = dev.PendingRequestQueue ∧
      dev1.Timers = dev.Timers ∧
      dev1.Sensor = dev.Sensor := by
  have hsat := satisfied_of_inverted dev.Sensor.Temperature req.InputBuffer.LowTemperature
    req.InputBuffer.HighTemperature (requestExpirationTime req.InputBuffer now) now
    (Nat.le_of_lt hband)
  refine ⟨_, addReadRequest_fast_path fuel dev req fw now hin hsat, ?_, ?_, rfl, rfl, rfl⟩
  · intro h4
    simp [retireCompletion, SIZEOF_ULONG, h4]
  · intro h4
    simp [retireCompletion, SIZEOF_ULONG, h4]

/-- Witness of C11: reading 70, band low 60 above high 40, timeout 5 ms. -/
theorem C11_inverted_band_fast_path_witness :
    ∃ dev1, CameraESPTZAddReadRequest 0 warmDevice (submission 7 5 60 40) allSucceed 1000 =
        some dev1 ∧
      dev1.Completed = [⟨7, STATUS_SUCCESS, 4, some 70⟩] ∧ dev1.PendingRequestQueue = [] :=
  let ⟨dev1, h, hc, _, hq, _⟩ :=
    C11_inverted_band_fast_path 0 warmDevice (submission 7 5 60 40) allSucceed 1000
      (by decide) (by decide)
  ⟨dev1, h, by rw [hc (by decide)]; decide, by rw [hq]; decide⟩

/-- A zero timeout submitted at a system time expires at that very time. -/
theorem requestExpirationTime_zero (w : THERMAL_WAIT_READ) (now : Int)
    (hzero : w.Timeout = 0) (hnow : IsSystemTime now) : requestExpirationTime w now = now := by
  unfold requestExpirationTime
  have hne : w.Timeout ≠ INFINITE_TIMEOUT := by rw [hzero]; decide
  rw [if_pos hne, hzero]
  simp only [Nat.cast_zero, zero_mul, add_zero]
  exact wrapI64_of_range now (by have := hnow.1; omega) hnow.2

/-- C12 (as stated, refuted): at reading 50 the submission with band [40,60]
and timeout 0 is completed by the admission itself with the reading 50; the
pending queue stays empty and no timer is started. -/
theorem C12_counterexample :
    (40 < idleDevice.Sensor.Temperature ∧ idleDevice.Sensor.Temperature < 60) ∧
    CameraESPTZAddReadRequest 2 idleDevice (submission 7 0 40 60) allSucceed 1000 =
      some ⟨[], ⟨0, ULONG_MAX, 50⟩, [⟨7, STATUS_SUCCESS, 4, some 50⟩], [], 0⟩ := by
  decide

/-- C12 (amended): for every reading, strictly inside the band or not, a
well-formed submission with timeout 0 ms made at a system time is completed on
the admission fast path (its due time is the time of submission, so the
predicate holds at that time and at every later system time): it is completed
with STATUS_SUCCESS, 4 bytes and the current reading, nothing is enqueued, no
timer is started and the sensor is unchanged. -/
theorem C12_zero_timeout_fast_path (fuel : Nat) (dev : DEVICE) (req : WDFREQUEST)
    (fw : FRAMEWORK_RESULTS) (now later : Int)
    (hin : req.InputBufferLength = SIZEOF_THERMAL_WAIT_READ)
    (hout : req.OutputBufferLength = SIZEOF_ULONG)
    (hzero : req.InputBuffer.Timeout = 0)
    (hnow : IsSystemTime now) (hlater : IsSystemTime later) (hle : now ≤ later) :
    CameraESPTZAreConstraintsSatisfied dev.Sensor.Temperature req.InputBuffer.LowTemperature
      req.InputBuffer.HighTemperature (requestExpirationTime req.InputBuffer now) later = true ∧
    ∃ dev1, CameraESPTZAddReadRequest fuel dev req fw now = some dev1 ∧
      dev1.Completed = dev.Completed ++
        [⟨req.Handle, STATUS_SUCCESS, 4, some dev.Sensor.Temperature⟩] ∧
      dev1.PendingRequestQueue = dev.PendingRequestQueue ∧
      dev1.Timers = dev.Timers ∧
      dev1.Sensor = dev.Sensor := by
  have hexp := requestExpirationTime_zero req.InputBuffer now hzero hnow
  have hsat : ∀ t, IsSystemTime t → now ≤ t →
      CameraESPTZAreConstraintsSatisfied dev.Sensor.Temperature req.InputBuffer.LowTemperature
        req.InputBuffer.HighTemperature (requestExpirationTime req.InputBuffer now) t = true := by
    intro t ht hnt
    rw [hexp]
    exact (satisfied_iff_of_nonneg _ _ _ now t hnow.1 hnow.2 ht).mpr (Or.inr hnt)
  refine ⟨hsat later hlater hle, _,
    addReadRequest_fast_path fuel dev req fw now hin (hsat now hnow (le_refl _)), ?_,
    rfl, rfl, rfl⟩
  have h4 : req.OutputBufferLength = 4 := hout
  simp [retireCompletion, SIZEOF_ULONG, h4]

/-- Witness of C12: reading 50, band [40,60], timeout 0, submitted at time 1000. -/
theorem C12_zero_timeout_fast_path_witness :
    ∃ dev1, CameraESPTZAddReadRequest 2 idleDevice (submission 7 0 40 60) allSucceed 1000 =
        some dev1 ∧
      dev1.Completed = [⟨7, STATUS_SUCCESS, 4, some 50⟩] ∧ dev1.PendingRequestQueue = [] :=
  let ⟨dev1, h, hc, hq, _⟩ :=
    (C12_zero_timeout_fast_path 2 idleDevice (submission 7 0 40 60) allSucceed 1000 1000
      (by decide) (by decide) (by decide) (by decide) (by decide) (by decide)).2
  ⟨dev1, h, by rw [hc]; decide, by rw [hq]; decide⟩

/-! ## Negative due times: claim C20 -/

/-- C20: for every negative due time (not only the sentinel -1), every reading
strictly inside the band and every current time,
CameraESPTZAreConstraintsSatisfied returns false. -/
theorem C20_negative_due_time_never_expires (r low high : Nat) (d now : Int) (hd : d < 0)
    (hlow : low < r) (hhigh : r < high) :
    CameraESPTZAreConstraintsSatisfied r low high d now = false := by
  rw [satisfied_of_neg r low high d now hd]
  have hb : ¬ (r ≤ low ∨ r ≥ high) := by omega
  simp [hb]

/-- Witness of C20: due time -7 at time 100, reading 50 inside [40,60]. -/
theorem C20_negative_due_time_never_expires_witness :
    CameraESPTZAreConstraintsSatisfied 50 40 60 (-7) 100 = false :=
  C20_negative_due_time_never_expires 50 40 60 (-7) 100 (by decide) (by decide) (by decide)

/-! ## Error paths: claims C13, C14 and C17 -/

/-- C13: a queued request (distinct handles) for which the predicate holds and
whose output buffer is not exactly 4 bytes long is removed from the pending
queue by CameraESPTZCheckQueuedRequest and completed with
STATUS_INVALID_PARAMETER, 0 bytes and no temperature; the two bounds are
returned untouched; and after a whole scan pass at that reading it is not
queued and carries that completion. -/
theorem C13_malformed_output_retired (fuel : Nat) (dev : DEVICE) (T lb ub : Nat)
    (r : WDFREQUEST) (now : Int)
    (hnd : (queueHandles dev.PendingRequestQueue).Nodup)
    (hr : r ∈ dev.PendingRequestQueue)
    (hsat : CameraESPTZAreConstraintsSatisfied T r.Context.LowTemperature
      r.Context.HighTemperature r.Context.ExpirationTime now = true)
    (hout : r.OutputBufferLength ≠ SIZEOF_ULONG) :
    (CameraESPTZCheckQueuedRequest dev T lb ub r now).1.PendingRequestQueue =
      dev.PendingRequestQueue.erase r ∧
    r ∉ (CameraESPTZCheckQueuedRequest dev T lb ub r now).1.PendingRequestQueue ∧
    r.Handle ∉
      queueHandles (CameraESPTZCheckQueuedRequest dev T lb ub r now).1.PendingRequestQueue ∧
    (CameraESPTZCheckQueuedRequest dev T lb ub r now).1.Completed =
      dev.Completed ++ [⟨r.Handle, STATUS_INVALID_PARAMETER, 0, none⟩] ∧
    (CameraESPTZCheckQueuedRequest dev T lb ub r now).2 = (lb, ub) ∧
    (CameraESPTZCheckQueuedRequest dev T lb ub r now).1.Sensor = dev.Sensor ∧
    (T = dev.Sensor.Temperature → dev.PendingRequestQueue.length < fuel →
      ∃ dev1 Status, CameraESPTZScanPendingQueue fuel dev now = some (dev1, Status) ∧
        r ∉ dev1.PendingRequestQueue ∧
        (⟨r.Handle, STATUS_INVALID_PARAMETER, 0, none⟩ : COMPLETION) ∈ dev1.Completed) := by
  obtain ⟨pre, rest, hq⟩ := List.append_of_mem hr
  have hnd1 : (queueHandles (pre ++ r :: rest)).Nodup := by rw [← hq]; exact hnd
  have hpre := nodup_prefix_ne pre r rest hnd1
  have hnotpre : r ∉ pre := fun hmem => hpre r hmem rfl
  have hnodupq : (pre ++ r :: rest).Nodup := by
    unfold queueHandles at hnd1
    exact List.Nodup.of_map _ hnd1
  have hnotrest : r ∉ rest := by
    intro hmem
    have h1 := (List.nodup_append.mp hnodupq).2.1
    exact (List.nodup_cons.mp h1).1 hmem
  have hresth : r.Handle ∉ queueHandles (pre ++ rest) := by
    unfold queueHandles at hnd1 ⊢
    rw [List.map_append, List.map_cons] at hnd1
    rw [List.map_append]
    intro hmem
    rcases List.mem_append.mp hmem with h1 | h1
    · exact (List.nodup_append.mp hnd1).2.2 h1 (List.mem_cons_self _ _)
    · exact (List.nodup_cons.mp (List.nodup_append.mp hnd1).2.1).1 h1
  have hc := check_satisfied dev T lb ub r now pre rest hq hpre hsat
  have hcomp : retireCompletion T r =
      (⟨r.Handle, STATUS_INVALID_PARAMETER, 0, none⟩ : COMPLETION) := by
    simp [retireCompletion, hout]
  rw [hc, hcomp]
  refine ⟨?_, ?_, hresth, rfl, rfl, rfl, ?_⟩
  · show pre ++ rest = dev.PendingRequestQueue.erase r
    rw [hq, List.erase_append_right _ hnotpre, List.erase_cons_head]
  · show r ∉ pre ++ rest
    intro hmem
    rcases List.mem_append.mp hmem with h1 | h1
    · exact hnotpre h1
    · exact hnotrest h1
  · intro hT hfuel
    subst hT
    have hsat1 : requestSatisfied dev.Sensor.Temperature now r = true := hsat
    refine ⟨scanned dev now, STATUS_NO_MORE_ENTRIES, scan_eq fuel dev now hnd hfuel, ?_, ?_⟩
    · intro hmem
      have hmem1 : r ∈ survivors dev.Sensor.Temperature now dev.PendingRequestQueue := hmem
      have := ((mem_survivors _ _ _ r).mp hmem1).2
      rw [hsat1] at this
      exact Bool.noConfusion this
    · have hret : r ∈ retired dev.Sensor.Temperature now dev.PendingRequestQueue :=
        (mem_retired _ _ _ r).mpr ⟨hr, hsat1⟩
      show _ ∈ dev.Completed ++ (retired dev.Sensor.Temperature now
        dev.PendingRequestQueue).map (retireCompletion dev.Sensor.Temperature)
      rw [← hcomp]
      exact List.mem_append_right _ (List.mem_map_of_mem _ hret)

/-- Witness of C13: the request with the 2-byte output buffer, satisfied at
reading 50, is completed with STATUS_INVALID_PARAMETER and leaves the queue. -/
theorem C13_malformed_output_retired_witness :
    (CameraESPTZCheckQueuedRequest malformedPending 50 0 ULONG_MAX shortOutputRequest
        0).1.Completed =
      malformedPending.Completed ++ [⟨5, STATUS_INVALID_PARAMETER, 0, none⟩] ∧
    shortOutputRequest ∉
      (CameraESPTZCheckQueuedRequest malformedPending 50 0 ULONG_MAX shortOutputRequest
        0).1.PendingRequestQueue :=
  have h := C13_malformed_output_retired 3 malformedPending 50 0 ULONG_MAX shortOutputRequest 0
    (by decide) (by decide) (by decide) (by decide)
  ⟨h.2.2.2.1, h.2.1⟩

/-- C14: for a submission with a 12-byte input buffer that is not satisfied,
when the context allocation fails, or the timer creation fails (attempted only
when the expiration is not the sentinel), or forwarding to the pending queue
fails, CameraESPTZAddReadRequest completes that request with the failing status
and 0 bytes; the pending queue and the sensor (reading and published band) are
unchanged and no scan is run (the result does not depend on the fuel, zero
included).  In the third case the timer started for an expiring request stays
started. -/
theorem C14_allocation_failure (fuel : Nat) (dev : DEVICE) (req : WDFREQUEST)
    (fw : FRAMEWORK_RESULTS) (now : Int)
    (hin : req.InputBufferLength = SIZEOF_THERMAL_WAIT_READ)
    (hunsat : CameraESPTZAreConstraintsSatisfied dev.Sensor.Temperature
      req.InputBuffer.LowTemperature req.InputBuffer.HighTemperature
      (requestExpirationTime req.InputBuffer now) now = false) :
    (NT_SUCCESS fw.AllocateContextStatus = false →
      ∃ dev1, CameraESPTZAddReadRequest fuel dev req fw now = some dev1 ∧
        dev1.Completed = dev.Completed ++ [⟨req.Handle, fw.AllocateContextStatus, 0, none⟩] ∧
        dev1.PendingRequestQueue = dev.PendingRequestQueue ∧
        dev1.Sensor = dev.Sensor ∧ dev1.Timers = dev.Timers) ∧
    (NT_SUCCESS fw.AllocateContextStatus = true →
      requestExpirationTime req.InputBuffer now ≠ INFINITE_DUE_TIME →
      NT_SUCCESS fw.TimerCreateStatus = false →
      ∃ dev1, CameraESPTZAddReadRequest fuel dev req fw now = some dev1 ∧
        dev1.Completed = dev.Completed ++ [⟨req.Handle, fw.TimerCreateStatus, 0, none⟩] ∧
        dev1.PendingRequestQueue = dev.PendingRequestQueue ∧
        dev1.Sensor = dev.Sensor ∧ dev1.Timers = dev.Timers) ∧
    (NT_SUCCESS fw.AllocateContextStatus = true →
      (requestExpirationTime req.InputBuffer now = INFINITE_DUE_TIME ∨
        NT_SUCCESS fw.TimerCreateStatus = true) →
      NT_SUCCESS fw.ForwardToIoQueueStatus = false →
      ∃ dev1, CameraESPTZAddReadRequest fuel dev req fw now = some dev1 ∧
        dev1.Completed = dev.Completed ++ [⟨req.Handle, fw.ForwardToIoQueueStatus, 0, none⟩] ∧
        dev1.PendingRequestQueue = dev.PendingRequestQueue ∧
        dev1.Sensor = dev.Sensor ∧
        dev1.Timers =
          if requestExpirationTime req.InputBuffer now ≠ INFINITE_DUE_TIME then
            dev.Timers ++ [⟨req.InputBuffer.Timeout⟩]
          else dev.Timers) := by
  refine ⟨?_, ?_, ?_⟩
  · intro hctx
    refine ⟨{ dev with Completed := dev.Completed ++
      [⟨req.Handle, fw.AllocateContextStatus, 0, none⟩] }, ?_, rfl, rfl, rfl, rfl⟩
    unfold CameraESPTZAddReadRequest WdfRequestRetrieveInputBuffer CameraESPTZReadTemperature
    simp only [hin, hunsat, hctx]
    simp [SIZEOF_THERMAL_WAIT_READ, NT_SUCCESS, STATUS_SUCCESS,
      WdfRequestCompleteWithInformation]
  · intro hctx hexp htimer
    refine ⟨{ dev with Completed := dev.Completed ++
      [⟨req.Handle, fw.TimerCreateStatus, 0, none⟩] }, ?_, rfl, rfl, rfl, rfl⟩
    unfold CameraESPTZAddReadRequest WdfRequestRetrieveInputBuffer CameraESPTZReadTemperature
    simp only [hin, hunsat, hctx, htimer]
    simp [SIZEOF_THERMAL_WAIT_READ, NT_SUCCESS, STATUS_SUCCESS,
      WdfRequestCompleteWithInformation, hexp]
  · intro hctx hor hfwd
    by_cases hexp : requestExpirationTime req.InputBuffer now = INFINITE_DUE_TIME
    · refine ⟨{ dev with Completed := dev.Completed ++
        [⟨req.Handle, fw.ForwardToIoQueueStatus, 0, none⟩] }, ?_, rfl, rfl, rfl, ?_⟩
      · unfold CameraESPTZAddReadRequest WdfRequestRetrieveInputBuffer
          CameraESPTZReadTemperature
        simp only [hin, hunsat, hctx, hfwd]
        simp [SIZEOF_THERMAL_WAIT_READ, NT_SUCCESS, STATUS_SUCCESS,
          WdfRequestCompleteWithInformation, hexp]
      · simp [hexp]
    · have htimer : NT_SUCCESS fw.TimerCreateStatus = true := by
        rcases hor with h | h
        · exact absurd h hexp
        · exact h
      refine ⟨{ dev with
        Completed := dev.Completed ++ [⟨req.Handle, fw.ForwardToIoQueueStatus, 0, none⟩]
        Timers := dev.Timers ++ [⟨req.InputBuffer.Timeout⟩] }, ?_, rfl, rfl, rfl, ?_⟩
      · unfold CameraESPTZAddReadRequest WdfRequestRetrieveInputBuffer
          CameraESPTZReadTemperature
        simp only [hin, hunsat, hctx, hfwd, htimer]
        simp [SIZEOF_THERMAL_WAIT_READ, NT_SUCCESS, STATUS_SUCCESS,
          WdfRequestCompleteWithInformation, WdfTimerStart, hexp]
      · simp [hexp]

/-- Witness of C14: at reading 50 the band [40,60] with timeout 5000 ms is not
satisfied; timer creation fails with STATUS_INSUFFICIENT_RESOURCES and the
request is completed with that status, with no fuel for a scan. -/
theorem C14_allocation_failure_witness :
    ∃ dev1, CameraESPTZAddReadRequest 0 twoPending (submission 7 5000 40 60)
        ⟨STATUS_SUCCESS, STATUS_INSUFFICIENT_RESOURCES, STATUS_SUCCESS⟩ 1000 = some dev1 ∧
      dev1.Completed =
        twoPending.Completed ++ [⟨7, STATUS_INSUFFICIENT_RESOURCES, 0, none⟩] ∧
      dev1.PendingRequestQueue = twoPending.PendingRequestQueue :=
  let ⟨dev1, h, hc, hq, _⟩ :=
    (C14_allocation_failure 0 twoPending (submission 7 5000 40 60)
      ⟨STATUS_SUCCESS, STATUS_INSUFFICIENT_RESOURCES, STATUS_SUCCESS⟩ 1000
      (by decide) (by decide)).2.1 (by decide) (by decide) (by decide)
  ⟨dev1, h, hc, hq⟩

/-- A submission whose input buffer is not exactly 12 bytes long is completed
with 0 bytes and nothing else changes; the status is the one the buffer
retrieval returned: STATUS_BUFFER_TOO_SMALL for a buffer shorter than the
structure, STATUS_SUCCESS for a longer one. -/
theorem addReadRequest_malformed_input (fuel : Nat) (dev : DEVICE) (req : WDFREQUEST)
    (fw : FRAMEWORK_RESULTS) (now : Int)
    (hlen : req.InputBufferLength ≠ SIZEOF_THERMAL_WAIT_READ) :
    CameraESPTZAddReadRequest fuel dev req fw now =
      some { dev with
        Completed := dev.Completed ++
          [⟨req.Handle,
            if req.InputBufferLength < SIZEOF_THERMAL_WAIT_READ then STATUS_BUFFER_TOO_SMALL
            else STATUS_SUCCESS, 0, none⟩] } := by
  unfold CameraESPTZAddReadRequest WdfRequestRetrieveInputBuffer
  unfold SIZEOF_THERMAL_WAIT_READ at hlen ⊢
  by_cases hlt : req.InputBufferLength < 12
  · have hor : req.InputBufferLength = 0 ∨ req.InputBufferLength < 12 := Or.inr hlt
    simp [hor, hlt, NT_SUCCESS, STATUS_BUFFER_TOO_SMALL, WdfRequestCompleteWithInformation]
  · have hor : ¬ (req.InputBufferLength = 0 ∨ req.InputBufferLength < 12) := by omega
    simp only [if_neg hor, if_neg hlt]
    simp [hlen, NT_SUCCESS, STATUS_SUCCESS, WdfRequestCompleteWithInformation]

/-- C17 (the code at the failing input): a submission whose input buffer is 16
bytes long, longer than the 12-byte structure, is completed with
STATUS_SUCCESS, a success status, and 0 bytes; whereas an 8-byte buffer is
completed with STATUS_BUFFER_TOO_SMALL, which is not a success status. -/
theorem C17_longer_input_completes_with_success :
    CameraESPTZAddReadRequest 0 idleDevice ⟨7, 16, ⟨5, 40, 60⟩, 4, ⟨0, 0, 0⟩⟩ allSucceed 1000 =
      some ⟨[], ⟨0, ULONG_MAX, 50⟩, [⟨7, STATUS_SUCCESS, 0, none⟩], [], 0⟩ ∧
    NT_SUCCESS STATUS_SUCCESS = true ∧
    CameraESPTZAddReadRequest 0 idleDevice ⟨7, 8, ⟨5, 40, 60⟩, 4, ⟨0, 0, 0⟩⟩ allSucceed 1000 =
      some ⟨[], ⟨0, ULONG_MAX, 50⟩, [⟨7, STATUS_BUFFER_TOO_SMALL, 0, none⟩], [], 0⟩ ∧
    NT_SUCCESS STATUS_BUFFER_TOO_SMALL = false := by
  decide

/-! ## What a scan pass leaves alone -/

theorem check_frame (dev : DEVICE) (T lb ub : Nat) (r : WDFREQUEST) (now : Int) :
    (CameraESPTZCheckQueuedRequest dev T lb ub r now).1.Sensor = dev.Sensor ∧
    (CameraESPTZCheckQueuedRequest dev T lb ub r now).1.Timers = dev.Timers ∧
    (CameraESPTZCheckQueuedRequest dev T lb ub r now).1.InterruptWorkerEnqueued =
      dev.InterruptWorkerEnqueued := by
  unfold CameraESPTZCheckQueuedRequest
  dsimp only
  split
  · cases WdfIoQueueRetrieveFoundRequest dev.PendingRequestQueue r.Handle with
    | none => exact ⟨rfl, rfl, rfl⟩
    | some found =>
      obtain ⟨found1, queue1⟩ := found
      dsimp only
      split <;> exact ⟨rfl, rfl, rfl⟩
  · exact ⟨rfl, rfl, rfl⟩

theorem scanLoop_frame (T : Nat) (now : Int) :
    ∀ (fuel : Nat) (dev : DEVICE) (Status : NTSTATUS) (cur : Option WDFREQUEST) (lb ub : Nat)
      (dev1 : DEVICE) (Status1 : NTSTATUS) (lb1 ub1 : Nat),
      scanLoop T now fuel dev Status cur lb ub = some (dev1, Status1, lb1, ub1) →
      dev1.Sensor = dev.Sensor ∧ dev1.Timers = dev.Timers ∧
        dev1.InterruptWorkerEnqueued = dev.InterruptWorkerEnqueued := by
  intro fuel
  induction fuel with
  | zero =>
    intro dev Status cur lb ub dev1 Status1 lb1 ub1 hrun
    simp [scanLoop] at hrun
  | succ fuel ih =>
    intro dev Status cur lb ub dev1 Status1 lb1 ub1 hrun
    unfold scanLoop at hrun
    by_cases hsucc : NT_SUCCESS Status = true
    · rw [if_pos hsucc] at hrun
      cases cur with
      | none => simp at hrun
      | some last =>
        obtain ⟨h1, h2, h3⟩ := check_frame dev T lb ub last now
        dsimp only at hrun
        split at hrun
        · obtain ⟨g1, g2, g3⟩ := ih _ _ _ _ _ _ _ _ _ hrun
          exact ⟨g1.trans h1, g2.trans h2, g3.trans h3⟩
        · obtain ⟨g1, g2, g3⟩ := ih _ _ _ _ _ _ _ _ _ hrun
          exact ⟨g1.trans h1, g2.trans h2, g3.trans h3⟩
    · rw [if_neg hsucc] at hrun
      simp only [Option.some.injEq, Prod.mk.injEq] at hrun
      obtain ⟨rfl, -, -, -⟩ := hrun
      exact ⟨rfl, rfl, rfl⟩

/-- Whatever the queue and the fuel, a scan pass that returns has changed
neither the reading, nor the started timers, nor the work-item count. -/
theorem scan_frame (fuel : Nat) (dev : DEVICE) (now : Int) (dev1 : DEVICE) (Status : NTSTATUS)
    (hrun : CameraESPTZScanPendingQueue fuel dev now = some (dev1, Status)) :
    dev1.Sensor.Temperature = dev.Sensor.Temperature ∧ dev1.Timers = dev.Timers ∧
      dev1.InterruptWorkerEnqueued = dev.InterruptWorkerEnqueued := by
  unfold CameraESPTZScanPendingQueue CameraESPTZReadTemperature at hrun
  dsimp only at hrun
  cases hloop : scanLoop dev.Sensor.Temperature now fuel dev
      (WdfIoQueueFindRequest dev.PendingRequestQueue none).1
      (WdfIoQueueFindRequest dev.PendingRequestQueue none).2 0 ULONG_MAX with
  | none => simp [hloop] at hrun
  | some res =>
    obtain ⟨dev2, Status2, lb, ub⟩ := res
    obtain ⟨h1, h2, h3⟩ := scanLoop_frame dev.Sensor.Temperature now fuel dev _ _ 0 ULONG_MAX
      dev2 Status2 lb ub hloop
    simp only [hloop, Option.some.injEq, Prod.mk.injEq] at hrun
    obtain ⟨rfl, -⟩ := hrun
    refine ⟨?_, h2, h3⟩
    show dev2.Sensor.Temperature = dev.Sensor.Temperature
    rw [h1]

/-- An admission either leaves the sensor as it was or is the scan pass run on
the device with the request appended; in both cases the reading is unchanged. -/
theorem addReadRequest_frame (fuel : Nat) (dev : DEVICE) (req : WDFREQUEST)
    (fw : FRAMEWORK_RESULTS) (now : Int) (dev1 : DEVICE)
    (hrun : CameraESPTZAddReadRequest fuel dev req fw now = some dev1) :
    dev1.Sensor.Temperature = dev.Sensor.Temperature ∧
    (dev1.Sensor = dev.Sensor ∨
      ∃ Status, CameraESPTZScanPendingQueue fuel (enqueued dev req now) now =
        some (dev1, Status)) := by
  by_cases hin : req.InputBufferLength = SIZEOF_THERMAL_WAIT_READ
  · cases hsat : CameraESPTZAreConstraintsSatisfied dev.Sensor.Temperature
        req.InputBuffer.LowTemperature req.InputBuffer.HighTemperature
        (requestExpirationTime req.InputBuffer now) now with
    | true =>
      rw [addReadRequest_fast_path fuel dev req fw now hin hsat] at hrun
      obtain rfl := Option.some.inj hrun
      exact ⟨rfl, Or.inl rfl⟩
    | false =>
      have hdev : WdfRequestForwardToIoQueue
          (if requestExpirationTime req.InputBuffer now = INFINITE_DUE_TIME then dev
            else WdfTimerStart dev req.InputBuffer.Timeout)
          { Handle := req.Handle, InputBufferLength := 12, InputBuffer := req.InputBuffer,
            OutputBufferLength := req.OutputBufferLength,
            Context :=
              { ExpirationTime := requestExpirationTime req.InputBuffer now,
                HighTemperature := req.InputBuffer.HighTemperature,
                LowTemperature := req.InputBuffer.LowTemperature } } =
          enqueued dev req now := by
        have h12 : req.InputBufferLength = 12 := hin
        unfold enqueued admitted WdfRequestForwardToIoQueue WdfTimerStart
        by_cases hexp : requestExpirationTime req.InputBuffer now = INFINITE_DUE_TIME
        · simp [hexp, h12]
        · simp [hexp, h12]
      unfold CameraESPTZAddReadRequest WdfRequestRetrieveInputBuffer
        CameraESPTZReadTemperature at hrun
      simp only [hin, hsat] at hrun
      simp only [SIZEOF_THERMAL_WAIT_READ, NT_SUCCESS, STATUS_SUCCESS] at hrun
      simp at hrun
      rw [hdev] at hrun
      split at hrun
      · obtain rfl := Option.some.inj hrun
        exact ⟨rfl, Or.inl rfl⟩
      · split at hrun
        · obtain rfl := Option.some.inj hrun
          exact ⟨rfl, Or.inl rfl⟩
        · split at hrun
          · obtain rfl := Option.some.inj hrun
            by_cases hexp : requestExpirationTime req.InputBuffer now = INFINITE_DUE_TIME
            · simp [hexp, WdfRequestCompleteWithInformation]
            · simp [hexp, WdfRequestCompleteWithInformation, WdfTimerStart]
          · cases hscan : CameraESPTZScanPendingQueue fuel (enqueued dev req now) now with
            | none => simp [hscan] at hrun
            | some res =>
              obtain ⟨dev2, Status⟩ := res
              simp only [hscan, Option.some.injEq] at hrun
              subst hrun
              exact ⟨(scan_frame fuel _ now dev2 Status hscan).1, Or.inr ⟨Status, rfl⟩⟩
  · rw [addReadRequest_malformed_input fuel dev req fw now hin] at hrun
    obtain rfl := Option.some.inj hrun
    exact ⟨rfl, Or.inl rfl⟩


/-- Whatever its input buffer, a temperature update leaves the published band,
the pending queue and the timers as they were. -/
theorem setTemperature_frame (dev : DEVICE) (req : SET_TEMPERATURE_REQUEST) :
    (CameraESPTZSetTemperature dev req).Sensor.LowerBound = dev.Sensor.LowerBound ∧
    (CameraESPTZSetTemperature dev req).Sensor.UpperBound = dev.Sensor.UpperBound ∧
    (CameraESPTZSetTemperature dev req).PendingRequestQueue = dev.PendingRequestQueue ∧
    (CameraESPTZSetTemperature dev req).Timers = dev.Timers := by
  by_cases hlen : req.InputBufferLength = 0
  · unfold CameraESPTZSetTemperature WdfRequestRetrieveInputBuffer
    simp [hlen, NT_SUCCESS, STATUS_BUFFER_TOO_SMALL, WdfRequestCompleteWithInformation]
  · rw [setTemperature_eq dev req hlen]
    exact ⟨rfl, rfl, rfl, rfl⟩

/-! ## Frame properties: claims C16 and C19 -/

/-- C16 (as stated, refuted): the camera-off notification changes
Sensor.Temperature, from 50 to 2940. -/
theorem C16_counterexample :
    idleDevice.Sensor.Temperature = 50 ∧
    (CameraESPTZCameraOffNotification idleDevice 3).Sensor.Temperature = 2940 ∧
    (CameraESPTZCameraOffNotification idleDevice 3).Sensor.Temperature ≠
      idleDevice.Sensor.Temperature := by
  decide

/-- C16 (amended): Sensor.Temperature is written by CameraESPTZSetTemperature and
by CameraESPTZCameraOffNotification (which sets it to 2940) only: a scan pass,
the timer callback, the interrupt worker, an admission and the camera-on
notification leave it unchanged.  Sensor.LowerBound and Sensor.UpperBound are
written by scan passes only: CameraESPTZSetTemperature and both camera
notifications leave them unchanged, the timer callback and the interrupt worker
are one scan pass, and an admission either leaves the sensor unchanged or
returns the state of the scan pass it ran on the queue with its request
appended. -/
theorem C16_frame (fuel : Nat) (dev : DEVICE) (req : WDFREQUEST) (fw : FRAMEWORK_RESULTS)
    (now : Int) (h : Nat) (setReq : SET_TEMPERATURE_REQUEST) (dev1 : DEVICE)
    (Status : NTSTATUS) :
    (CameraESPTZScanPendingQueue fuel dev now = some (dev1, Status) →
      dev1.Sensor.Temperature = dev.Sensor.Temperature) ∧
    (CameraESPTZEvtExpiredRequestTimer fuel dev now = some dev1 →
      dev1.Sensor.Temperature = dev.Sensor.Temperature) ∧
    (CameraESPTZInterruptWorker fuel dev now = some dev1 →
      dev1.Sensor.Temperature = dev.Sensor.Temperature) ∧
    (CameraESPTZAddReadRequest fuel dev req fw now = some dev1 →
      dev1.Sensor.Temperature = dev.Sensor.Temperature) ∧
    (CameraESPTZCameraOnNotification dev h).Sensor = dev.Sensor ∧
    (CameraESPTZCameraOffNotification dev h).Sensor.Temperature = 2940 ∧
    (CameraESPTZCameraOffNotification dev h).Sensor.LowerBound = dev.Sensor.LowerBound ∧
    (CameraESPTZCameraOffNotification dev h).Sensor.UpperBound = dev.Sensor.UpperBound ∧
    (CameraESPTZSetTemperature dev setReq).Sensor.LowerBound = dev.Sensor.LowerBound ∧
    (CameraESPTZSetTemperature dev setReq).Sensor.UpperBound = dev.Sensor.UpperBound ∧
    CameraESPTZEvtExpiredRequestTimer fuel dev now =
      (CameraESPTZScanPendingQueue fuel dev now).map Prod.fst ∧
    CameraESPTZInterruptWorker fuel dev now =
      (CameraESPTZScanPendingQueue fuel dev now).map Prod.fst ∧
    (CameraESPTZAddReadRequest fuel dev req fw now = some dev1 →
      dev1.Sensor = dev.Sensor ∨
      ∃ Status1, CameraESPTZScanPendingQueue fuel
        { dev with
          PendingRequestQueue := dev.PendingRequestQueue ++
            [{ req with
                Context := ⟨requestExpirationTime req.InputBuffer now,
                  req.InputBuffer.HighTemperature, req.InputBuffer.LowTemperature⟩ }]
          Timers :=
            if requestExpirationTime req.InputBuffer now ≠ INFINITE_DUE_TIME then
              dev.Timers ++ [⟨req.InputBuffer.Timeout⟩]
            else dev.Timers } now = some (dev1, Status1)) := by
  have hwrap : ∀ d : DEVICE,
      (CameraESPTZScanPendingQueue fuel dev now).map Prod.fst = some d →
      d.Sensor.Temperature = dev.Sensor.Temperature := by
    intro d hd
    cases hscan : CameraESPTZScanPendingQueue fuel dev now with
    | none => simp [hscan] at hd
    | some res =>
      obtain ⟨dev2, Status2⟩ := res
      simp only [hscan, Option.map_some', Option.some.injEq] at hd
      subst hd
      exact (scan_frame fuel dev now dev2 Status2 hscan).1
  refine ⟨fun hrun => (scan_frame fuel dev now dev1 Status hrun).1, hwrap dev1, hwrap dev1,
    fun hrun => (addReadRequest_frame fuel dev req fw now dev1 hrun).1, rfl, rfl, rfl, rfl,
    (setTemperature_frame dev setReq).1, (setTemperature_frame dev setReq).2.1, rfl, rfl,
    fun hrun => (addReadRequest_frame fuel dev req fw now dev1 hrun).2⟩

/-- Witness of C16: the interrupt worker on the two-request queue at time 1000
retires a request and publishes [10,90] with the reading still 50. -/
theorem C16_frame_witness :
    CameraESPTZInterruptWorker 3 twoPending 1000 =
      some ⟨[queuedRequest 1 10 90 INFINITE_DUE_TIME], ⟨10, 90, 50⟩,
        [⟨2, STATUS_SUCCESS, 4, some 50⟩], [], 0⟩ ∧
    (⟨[queuedRequest 1 10 90 INFINITE_DUE_TIME], ⟨10, 90, 50⟩,
        [⟨2, STATUS_SUCCESS, 4, some 50⟩], [], 0⟩ : DEVICE).Sensor.Temperature =
      twoPending.Sensor.Temperature :=
  ⟨by decide,
    (C16_frame 3 twoPending (submission 7 0 40 60) allSucceed 1000 3 ⟨9, 4, 75⟩
      ⟨[queuedRequest 1 10 90 INFINITE_DUE_TIME], ⟨10, 90, 50⟩,
        [⟨2, STATUS_SUCCESS, 4, some 50⟩], [], 0⟩ STATUS_SUCCESS).2.2.1 (by decide)⟩

/-- C19 (as stated, refuted): the band [40,60] with timeout 5000 ms is admitted
at reading 50 and time 1000 (queued, one timer started, due at 50001000); the
reading becomes 70 and the interrupt worker scans at time 2000, before the due
time: the request is retired with the reading 70, the queue is empty, and the
timer is still there: one started timer, no queued request. -/
theorem C19_counterexample :
    ∃ dev1 dev2,
      CameraESPTZAddReadRequest 2 idleDevice (submission 7 5000 40 60) allSucceed 1000 =
        some dev1 ∧
      dev1.PendingRequestQueue = [admitted (submission 7 5000 40 60) 1000] ∧
      (admitted (submission 7 5000 40 60) 1000).Context.ExpirationTime = 50001000 ∧
      dev1.Timers = [⟨5000⟩] ∧
      CameraESPTZInterruptWorker 2 (CameraESPTZSetTemperature dev1 ⟨8, 4, 70⟩) 2000 =
        some dev2 ∧
      (2000 : Int) < 50001000 ∧
      (⟨7, STATUS_SUCCESS, 4, some 70⟩ : COMPLETION) ∈ dev2.Completed ∧
      dev2.PendingRequestQueue = [] ∧
      dev2.Timers = [⟨5000⟩] ∧
      dev2.Timers.length >
        (dev2.PendingRequestQueue.filter
          (fun r => decide (r.Context.ExpirationTime ≠ INFINITE_DUE_TIME))).length :=
  ⟨⟨[admitted (submission 7 5000 40 60) 1000], ⟨40, 60, 50⟩, [], [⟨5000⟩], 0⟩,
    ⟨[], ⟨0, ULONG_MAX, 70⟩, [⟨8, STATUS_SUCCESS, 0, none⟩, ⟨7, STATUS_SUCCESS, 4, some 70⟩],
      [⟨5000⟩], 1⟩,
    by decide, rfl, by decide, rfl, by decide, by decide, by decide, rfl, rfl, by decide⟩

/-- C19 (amended): when a scan pass retires a queued request because its band
is crossed, whether or not a timer was started for it, no timer is cancelled:
the request leaves the queue and the started timers after the pass are exactly
those before it.  Started timers can therefore outnumber the queued requests
with a finite deadline. -/
theorem C19_scan_keeps_timers (fuel : Nat) (dev : DEVICE) (now : Int) (r : WDFREQUEST)
    (hv : ValidDevice dev) (hfuel : dev.PendingRequestQueue.length < fuel)
    (hr : r ∈ dev.PendingRequestQueue)
    (hcross : dev.Sensor.Temperature ≤ r.Context.LowTemperature ∨
      dev.Sensor.Temperature ≥ r.Context.HighTemperature) :
    ∃ dev1 Status, CameraESPTZScanPendingQueue fuel dev now = some (dev1, Status) ∧
      r ∉ dev1.PendingRequestQueue ∧
      (∃ c ∈ dev1.Completed, c.Request = r.Handle) ∧
      dev1.Timers = dev.Timers := by
  obtain ⟨hnd, -, -⟩ := hv
  have hscan := scan_eq fuel dev now hnd hfuel
  have hsat : requestSatisfied dev.Sensor.Temperature now r = true := by
    unfold requestSatisfied CameraESPTZAreConstraintsSatisfied
    simp [hcross]
  refine ⟨scanned dev now, STATUS_NO_MORE_ENTRIES, hscan, ?_, ?_,
    (scan_frame fuel dev now _ _ hscan).2.1⟩
  · intro hmem
    have hmem1 : r ∈ survivors dev.Sensor.Temperature now dev.PendingRequestQueue := hmem
    have := ((mem_survivors _ _ _ r).mp hmem1).2
    rw [hsat] at this
    exact Bool.noConfusion this
  · refine ⟨retireCompletion dev.Sensor.Temperature r, ?_, retireCompletion_request _ r⟩
    have hret : r ∈ retired dev.Sensor.Temperature now dev.PendingRequestQueue :=
      (mem_retired _ _ _ r).mpr ⟨hr, hsat⟩
    show _ ∈ dev.Completed ++ (retired dev.Sensor.Temperature now
      dev.PendingRequestQueue).map (retireCompletion dev.Sensor.Temperature)
    exact List.mem_append_right _ (List.mem_map_of_mem _ hret)

/-- Witness of C19: the queued band [40,60] with its timer started, reading 70. -/
theorem C19_scan_keeps_timers_witness :
    ValidDevice timedPending ∧
      ∃ dev1 Status, CameraESPTZScanPendingQueue 2 timedPending 2000 = some (dev1, Status) ∧
        admitted (submission 7 5000 40 60) 1000 ∉ dev1.PendingRequestQueue ∧
        dev1.Timers = timedPending.Timers :=
  ⟨by decide,
    let ⟨dev1, Status, h, hq, _, ht⟩ :=
      C19_scan_keeps_timers 2 timedPending 2000 (admitted (submission 7 5000 40 60) 1000)
        (by decide) (by decide) (by decide) (by decide)
    ⟨dev1, Status, h, hq, ht⟩⟩

/-! ## Two serialized passes: claim C15 -/

theorem countP_handle_zero (l : List WDFREQUEST) (h : Nat) (hn : h ∉ queueHandles l) :
    l.countP (fun x => decide (x.Handle = h)) = 0 := by
  rw [List.countP_eq_zero]
  intro x hx hdec
  have hxh : x.Handle = h := by simpa using hdec
  exact hn (by unfold queueHandles; rw [← hxh]; exact List.mem_map_of_mem _ hx)

theorem countP_handle_one (l : List WDFREQUEST) (r : WDFREQUEST)
    (hnd : (queueHandles l).Nodup) (hr : r ∈ l) :
    l.countP (fun x => decide (x.Handle = r.Handle)) = 1 := by
  induction l with
  | nil => simp at hr
  | cons a l ih =>
    unfold queueHandles at hnd
    rw [List.map_cons, List.nodup_cons] at hnd
    obtain ⟨hna, hndl⟩ := hnd
    rcases List.mem_cons.mp hr with rfl | hmem
    · have hz := countP_handle_zero l r.Handle hna
      rw [List.countP_cons_of_pos _ _ (by simp), hz]
    · have hne : ¬ a.Handle = r.Handle := by
        intro heq
        exact hna (by rw [heq]; exact List.mem_map_of_mem _ hmem)
      rw [List.countP_cons_of_neg _ _ (by simpa using hne)]
      exact ih hndl hmem

theorem retired_nodup (T : Nat) (now : Int) (q : List WDFREQUEST)
    (h : (queueHandles q).Nodup) : (queueHandles (retired T now q)).Nodup := by
  unfold queueHandles retired at *
  exact h.sublist (List.Sublist.map _ (List.filter_sublist q))

/-- The handle of a retired request is not the handle of any survivor. -/
theorem handle_not_mem_survivors (T : Nat) (now : Int) (q : List WDFREQUEST) (r : WDFREQUEST)
    (hnd : (queueHandles q).Nodup) (hr : r ∈ q) (hsat : requestSatisfied T now r = true) :
    r.Handle ∉ queueHandles (survivors T now q) := by
  intro hmem
  unfold queueHandles at hmem hnd
  obtain ⟨r1, hr1, hh⟩ := List.mem_map.mp hmem
  obtain ⟨hr1q, hr1s⟩ := (mem_survivors _ _ _ r1).mp hr1
  have heq : r1 = r := List.inj_on_of_nodup_map hnd hr1q hr hh
  rw [heq, hsat] at hr1s
  exact Bool.noConfusion hr1s

/-- Completions a scan pass adds for one handle: as many as retired requests
carry that handle. -/
theorem completionsOf_scanned (dev : DEVICE) (now : Int) (h : Nat) :
    completionsOf h (scanned dev now) = completionsOf h dev +
      (retired dev.Sensor.Temperature now dev.PendingRequestQueue).countP
        (fun x => decide (x.Handle = h)) := by
  unfold completionsOf
  show List.countP _ (dev.Completed ++ (retired dev.Sensor.Temperature now
    dev.PendingRequestQueue).map (retireCompletion dev.Sensor.Temperature)) = _
  rw [List.countP_append, List.countP_map]
  congr 1
  apply List.countP_congr
  intro x _
  simp [retireCompletion_request]

/-- Two scan passes in a row: a request satisfied at the first is completed
once by the first and not at all by the second. -/
theorem two_passes_complete_once (fuel : Nat) (dev : DEVICE) (now1 now2 : Int)
    (r : WDFREQUEST) (hnd : (queueHandles dev.PendingRequestQueue).Nodup)
    (hfuel : dev.PendingRequestQueue.length < fuel) (hr : r ∈ dev.PendingRequestQueue)
    (hsat : requestSatisfied dev.Sensor.Temperature now1 r = true) :
    CameraESPTZScanPendingQueue fuel dev now1 =
      some (scanned dev now1, STATUS_NO_MORE_ENTRIES) ∧
    CameraESPTZScanPendingQueue fuel (scanned dev now1) now2 =
      some (scanned (scanned dev now1) now2, STATUS_NO_MORE_ENTRIES) ∧
    r.Handle ∉ queueHandles (scanned dev now1).PendingRequestQueue ∧
    completionsOf r.Handle (scanned dev now1) = completionsOf r.Handle dev + 1 ∧
    completionsOf r.Handle (scanned (scanned dev now1) now2) =
      completionsOf r.Handle dev + 1 := by
  have hnd1 : (queueHandles (scanned dev now1).PendingRequestQueue).Nodup :=
    survivors_nodup _ _ _ hnd
  have hlen : (scanned dev now1).PendingRequestQueue.length < fuel := by
    have : (survivors dev.Sensor.Temperature now1 dev.PendingRequestQueue).length ≤
        dev.PendingRequestQueue.length := List.length_filter_le _ _
    show (survivors dev.Sensor.Temperature now1 dev.PendingRequestQueue).length < fuel
    omega
  have hgone := handle_not_mem_survivors dev.Sensor.Temperature now1 dev.PendingRequestQueue r
    hnd hr hsat
  have hfirst : completionsOf r.Handle (scanned dev now1) = completionsOf r.Handle dev + 1 := by
    rw [completionsOf_scanned]
    congr 1
    exact countP_handle_one _ r (retired_nodup _ _ _ hnd) ((mem_retired _ _ _ r).mpr ⟨hr, hsat⟩)
  refine ⟨scan_eq fuel dev now1 hnd hfuel, scan_eq fuel _ now2 hnd1 hlen, hgone, hfirst, ?_⟩
  rw [completionsOf_scanned, hfirst]
  have hzero : (retired (scanned dev now1).Sensor.Temperature now2
      (scanned dev now1).PendingRequestQueue).countP
        (fun x => decide (x.Handle = r.Handle)) = 0 := by
    apply countP_handle_zero
    intro hmem
    apply hgone
    unfold queueHandles at hmem ⊢
    obtain ⟨x, hx, hxh⟩ := List.mem_map.mp hmem
    have hxq := ((mem_retired _ _ _ x).mp hx).1
    rw [← hxh]
    exact List.mem_map_of_mem _ hxq
  rw [hzero]

/-- C15: a queued request (distinct handles) that is satisfied when the first
of two serialized scan passes runs receives exactly one completion, whichever
pass comes first, the interrupt worker (an ordinary scan pass) and then the
timer callback, or the timer callback and then the interrupt worker: the first
pass removes and completes it, the second does not find its handle in the queue
and adds no completion for it. -/
theorem C15_exactly_one_completion (fuel : Nat) (dev : DEVICE) (now1 now2 : Int)
    (r : WDFREQUEST) (hv : ValidDevice dev)
    (hfuel : dev.PendingRequestQueue.length < fuel) (hr : r ∈ dev.PendingRequestQueue)
    (hsat : CameraESPTZAreConstraintsSatisfied dev.Sensor.Temperature
      r.Context.LowTemperature r.Context.HighTemperature r.Context.ExpirationTime now1 = true) :
    (∃ dev1 dev2,
      CameraESPTZInterruptWorker fuel dev now1 = some dev1 ∧
      CameraESPTZEvtExpiredRequestTimer fuel dev1 now2 = some dev2 ∧
      r.Handle ∉ queueHandles dev1.PendingRequestQueue ∧
      completionsOf r.Handle dev1 = completionsOf r.Handle dev + 1 ∧
      completionsOf r.Handle dev2 = completionsOf r.Handle dev + 1) ∧
    (∃ dev1 dev2,
      CameraESPTZEvtExpiredRequestTimer fuel dev now1 = some dev1 ∧
      CameraESPTZInterruptWorker fuel dev1 now2 = some dev2 ∧
      r.Handle ∉ queueHandles dev1.PendingRequestQueue ∧
      completionsOf r.Handle dev1 = completionsOf r.Handle dev + 1 ∧
      completionsOf r.Handle dev2 = completionsOf r.Handle dev + 1) := by
  obtain ⟨h1, h2, hgone, hc1, hc2⟩ :=
    two_passes_complete_once fuel dev now1 now2 r hv.1 hfuel hr hsat
  constructor
  · refine ⟨scanned dev now1, scanned (scanned dev now1) now2, ?_, ?_, hgone, hc1, hc2⟩
    · unfold CameraESPTZInterruptWorker
      rw [h1]
      rfl
    · unfold CameraESPTZEvtExpiredRequestTimer
      rw [h2]
      rfl
  · refine ⟨scanned dev now1, scanned (scanned dev now1) now2, ?_, ?_, hgone, hc1, hc2⟩
    · unfold CameraESPTZEvtExpiredRequestTimer
      rw [h1]
      rfl
    · unfold CameraESPTZInterruptWorker
      rw [h2]
      rfl

/-- Witness of C15: the request with band [40,60], due at 50001000, reading 70:
the worker pass at time 2000 and the timer pass at the due time. -/
theorem C15_exactly_one_completion_witness :
    ValidDevice timedPending ∧
      ∃ dev1 dev2,
        CameraESPTZInterruptWorker 2 timedPending 2000 = some dev1 ∧
        CameraESPTZEvtExpiredRequestTimer 2 dev1 50001000 = some dev2 ∧
        completionsOf 7 dev2 = completionsOf 7 timedPending + 1 :=
  ⟨by decide,
    let ⟨dev1, dev2, h1, h2, _, _, hc⟩ :=
      (C15_exactly_one_completion 2 timedPending 2000 50001000
        (admitted (submission 7 5000 40 60) 1000) (by decide) (by decide) (by decide)
        (by decide)).1
    ⟨dev1, dev2, h1, h2, hc⟩⟩

/-! ## Lock discipline: claim C18 -/

/-- C18: the lock and interrupt events of every operation respect the
discipline: started with no lock held, CameraESPTZSetTemperature,
CameraESPTZAddReadRequest, CameraESPTZEvtExpiredRequestTimer and
CameraESPTZInterruptWorker never acquire QueueLock and never raise the
interrupt while Sensor.Lock is held, and end with no lock held;
CameraESPTZScanPendingQueue, entered with QueueLock held, takes and releases
Sensor.Lock inside it.  The only nesting is Sensor.Lock inside QueueLock. -/
theorem C18_lock_discipline (dev : DEVICE) (req : WDFREQUEST) (fw : FRAMEWORK_RESULTS)
    (now : Int) (setReq : SET_TEMPERATURE_REQUEST) :
    lockRun ⟨false, false⟩ (CameraESPTZSetTemperatureEvents dev setReq) = some ⟨false, false⟩ ∧
    lockRun ⟨false, false⟩ (CameraESPTZAddReadRequestEvents dev req fw now) =
      some ⟨false, false⟩ ∧
    lockRun ⟨false, false⟩ CameraESPTZEvtExpiredRequestTimerEvents = some ⟨false, false⟩ ∧
    lockRun ⟨false, false⟩ CameraESPTZInterruptWorkerEvents = some ⟨false, false⟩ ∧
    lockRun ⟨false, true⟩ CameraESPTZScanPendingQueueEvents = some ⟨false, true⟩ ∧
    lockRun ⟨true, false⟩ [LOCK_EVENT.AcquireQueueLock] = none ∧
    lockRun ⟨true, false⟩ [LOCK_EVENT.RaiseInterrupt] = none := by
  refine ⟨?_, ?_, by decide, by decide, by decide, by decide, by decide⟩
  · unfold CameraESPTZSetTemperatureEvents
    dsimp only
    split
    · split <;> decide
    · decide
  · unfold CameraESPTZAddReadRequestEvents
    dsimp only
    split
    · decide
    · split
      · decide
      · split
        · decide
        · split
          · decide
          · split <;> decide

/-! ## Only unsatisfied requests are queued -/

theorem retrieveFoundRequest_subset :
    ∀ (q : List WDFREQUEST) (h : Nat) (r : WDFREQUEST) (q1 : List WDFREQUEST),
      WdfIoQueueRetrieveFoundRequest q h = some (r, q1) → ∀ x ∈ q1, x ∈ q := by
  intro q
  induction q with
  | nil =>
    intro h r q1 hret
    simp [WdfIoQueueRetrieveFoundRequest] at hret
  | cons a q ih =>
    intro h r q1 hret x hx
    unfold WdfIoQueueRetrieveFoundRequest at hret
    by_cases ha : a.Handle = h
    · rw [if_pos ha] at hret
      simp only [Option.some.injEq, Prod.mk.injEq] at hret
      obtain ⟨-, rfl⟩ := hret
      exact List.mem_cons_of_mem _ hx
    · rw [if_neg ha] at hret
      cases hrec : WdfIoQueueRetrieveFoundRequest q h with
      | none => simp [hrec] at hret
      | some res =>
        obtain ⟨found, rest1⟩ := res
        simp only [hrec, Option.some.injEq, Prod.mk.injEq] at hret
        obtain ⟨-, rfl⟩ := hret
        rcases List.mem_cons.mp hx with rfl | hmem
        · exact List.mem_cons_self _ _
        · exact List.mem_cons_of_mem _ (ih h found rest1 hrec x hmem)

theorem check_queue_subset (dev : DEVICE) (T lb ub : Nat) (r : WDFREQUEST) (now : Int) :
    ∀ x ∈ (CameraESPTZCheckQueuedRequest dev T lb ub r now).1.PendingRequestQueue,
      x ∈ dev.PendingRequestQueue := by
  unfold CameraESPTZCheckQueuedRequest
  dsimp only
  split
  · cases hret : WdfIoQueueRetrieveFoundRequest dev.PendingRequestQueue r.Handle with
    | none => exact fun x hx => hx
    | some found =>
      obtain ⟨found1, queue1⟩ := found
      have hsub := retrieveFoundRequest_subset _ _ _ _ hret
      dsimp only
      split <;> exact hsub
  · exact fun x hx => hx

theorem scanLoop_queue_subset (T : Nat) (now : Int) :
    ∀ (fuel : Nat) (dev : DEVICE) (Status : NTSTATUS) (cur : Option WDFREQUEST) (lb ub : Nat)
      (dev1 : DEVICE) (Status1 : NTSTATUS) (lb1 ub1 : Nat),
      scanLoop T now fuel dev Status cur lb ub = some (dev1, Status1, lb1, ub1) →
      ∀ x ∈ dev1.PendingRequestQueue, x ∈ dev.PendingRequestQueue := by
  intro fuel
  induction fuel with
  | zero =>
    intro dev Status cur lb ub dev1 Status1 lb1 ub1 hrun
    simp [scanLoop] at hrun
  | succ fuel ih =>
    intro dev Status cur lb ub dev1 Status1 lb1 ub1 hrun
    unfold scanLoop at hrun
    by_cases hsucc : NT_SUCCESS Status = true
    · rw [if_pos hsucc] at hrun
      cases cur with
      | none => simp at hrun
      | some last =>
        have hsub := check_queue_subset dev T lb ub last now
        dsimp only at hrun
        split at hrun
        · exact fun x hx => hsub x (ih _ _ _ _ _ _ _ _ _ hrun x hx)
        · exact fun x hx => hsub x (ih _ _ _ _ _ _ _ _ _ hrun x hx)
    · rw [if_neg hsucc] at hrun
      simp only [Option.some.injEq, Prod.mk.injEq] at hrun
      obtain ⟨rfl, -, -, -⟩ := hrun
      exact fun x hx => hx

/-- Whatever the queue and the fuel, a scan pass adds no request to the queue. -/
theorem scan_queue_subset (fuel : Nat) (dev : DEVICE) (now : Int) (dev1 : DEVICE)
    (Status : NTSTATUS) (hrun : CameraESPTZScanPendingQueue fuel dev now = some (dev1, Status)) :
    ∀ x ∈ dev1.PendingRequestQueue, x ∈ dev.PendingRequestQueue := by
  unfold CameraESPTZScanPendingQueue CameraESPTZReadTemperature at hrun
  dsimp only at hrun
  cases hloop : scanLoop dev.Sensor.Temperature now fuel dev
      (WdfIoQueueFindRequest dev.PendingRequestQueue none).1
      (WdfIoQueueFindRequest dev.PendingRequestQueue none).2 0 ULONG_MAX with
  | none => simp [hloop] at hrun
  | some res =>
    obtain ⟨dev2, Status2, lb, ub⟩ := res
    have hsub := scanLoop_queue_subset dev.Sensor.Temperature now fuel dev _ _ 0 ULONG_MAX
      dev2 Status2 lb ub hloop
    simp only [hloop, Option.some.injEq, Prod.mk.injEq] at hrun
    obtain ⟨rfl, -⟩ := hrun
    exact hsub

/-- An admission leaves the queue as it was, or the predicate does not hold for
the submission and the result is the scan pass on the queue with the admitted
request appended. -/
theorem addReadRequest_queue (fuel : Nat) (dev : DEVICE) (req : WDFREQUEST)
    (fw : FRAMEWORK_RESULTS) (now : Int) (dev1 : DEVICE)
    (hrun : CameraESPTZAddReadRequest fuel dev req fw now = some dev1) :
    dev1.PendingRequestQueue = dev.PendingRequestQueue ∨
    (CameraESPTZAreConstraintsSatisfied dev.Sensor.Temperature
        req.InputBuffer.LowTemperature req.InputBuffer.HighTemperature
        (requestExpirationTime req.InputBuffer now) now = false ∧
      ∃ Status, CameraESPTZScanPendingQueue fuel (enqueued dev req now) now =
        some (dev1, Status)) := by
  by_cases hin : req.InputBufferLength = SIZEOF_THERMAL_WAIT_READ
  · cases hsat : CameraESPTZAreConstraintsSatisfied dev.Sensor.Temperature
        req.InputBuffer.LowTemperature req.InputBuffer.HighTemperature
        (requestExpirationTime req.InputBuffer now) now with
    | true =>
      rw [addReadRequest_fast_path fuel dev req fw now hin hsat] at hrun
      obtain rfl := Option.some.inj hrun
      exact Or.inl rfl
    | false =>
      have hdev : WdfRequestForwardToIoQueue
          (if requestExpirationTime req.InputBuffer now = INFINITE_DUE_TIME then dev
            else WdfTimerStart dev req.InputBuffer.Timeout)
          { Handle := req.Handle, InputBufferLength := 12, InputBuffer := req.InputBuffer,
            OutputBufferLength := req.OutputBufferLength,
            Context :=
              { ExpirationTime := requestExpirationTime req.InputBuffer now,
                HighTemperature := req.InputBuffer.HighTemperature,
                LowTemperature := req.InputBuffer.LowTemperature } } =
          enqueued dev req now := by
        have h12 : req.InputBufferLength = 12 := hin
        unfold enqueued admitted WdfRequestForwardToIoQueue WdfTimerStart
        by_cases hexp : requestExpirationTime req.InputBuffer now = INFINITE_DUE_TIME
        · simp [hexp, h12]
        · simp [hexp, h12]
      unfold CameraESPTZAddReadRequest WdfRequestRetrieveInputBuffer
        CameraESPTZReadTemperature at hrun
      simp only [hin, hsat] at hrun
      simp only [SIZEOF_THERMAL_WAIT_READ, NT_SUCCESS, STATUS_SUCCESS] at hrun
      simp at hrun
      rw [hdev] at hrun
      split at hrun
      · obtain rfl := Option.some.inj hrun
        exact Or.inl rfl
      · split at hrun
        · obtain rfl := Option.some.inj hrun
          exact Or.inl rfl
        · split at hrun
          · obtain rfl := Option.some.inj hrun
            by_cases hexp : requestExpirationTime req.InputBuffer now = INFINITE_DUE_TIME
            · simp [hexp, WdfRequestCompleteWithInformation]
            · simp [hexp, WdfRequestCompleteWithInformation, WdfTimerStart]
          · cases hscan : CameraESPTZScanPendingQueue fuel (enqueued dev req now) now with
            | none => simp [hscan] at hrun
            | some res =>
              obtain ⟨dev2, Status⟩ := res
              simp only [hscan, Option.some.injEq] at hrun
              subst hrun
              exact Or.inr ⟨rfl, Status, rfl⟩
  · rw [addReadRequest_malformed_input fuel dev req fw now hin] at hrun
    obtain rfl := Option.some.inj hrun
    exact Or.inl rfl

/-- A scan pass keeps the invariant of the queued bands. -/
theorem scan_preserves_bands (fuel : Nat) (dev : DEVICE) (now : Int) (dev1 : DEVICE)
    (Status : NTSTATUS) (hinv : QueuedBandsOrdered dev)
    (hrun : CameraESPTZScanPendingQueue fuel dev now = some (dev1, Status)) :
    QueuedBandsOrdered dev1 :=
  fun r hr => hinv r (scan_queue_subset fuel dev now dev1 Status hrun r hr)

/-- An admission keeps the invariant of the queued bands: the request it
appends is one the predicate does not hold for, so the reading lies strictly
between its low and its high. -/
theorem addReadRequest_preserves_bands (fuel : Nat) (dev : DEVICE) (req : WDFREQUEST)
    (fw : FRAMEWORK_RESULTS) (now : Int) (dev1 : DEVICE) (hinv : QueuedBandsOrdered dev)
    (hrun : CameraESPTZAddReadRequest fuel dev req fw now = some dev1) :
    QueuedBandsOrdered dev1 := by
  rcases addReadRequest_queue fuel dev req fw now dev1 hrun with hq | ⟨hunsat, Status, hscan⟩
  · intro r hr
    rw [hq] at hr
    exact hinv r hr
  · have hinside := unsatisfied_inside dev.Sensor.Temperature now (admitted req now)
      (admitted_unsatisfied dev req now hunsat)
    have henq : QueuedBandsOrdered (enqueued dev req now) := by
      intro r hr
      have hr1 : r ∈ dev.PendingRequestQueue ++ [admitted req now] := hr
      rcases List.mem_append.mp hr1 with h | h
      · exact hinv r h
      · rw [List.mem_singleton.mp h]
        exact ⟨by omega, rfl, rfl⟩
    exact scan_preserves_bands fuel _ now dev1 Status henq hscan

theorem runOperation_preserves_bands (fuel : Nat) (dev : DEVICE) (now : Int) (op : OPERATION)
    (dev1 : DEVICE) (hinv : QueuedBandsOrdered dev)
    (hrun : runOperation fuel dev now op = some dev1) : QueuedBandsOrdered dev1 := by
  have hwrap : (CameraESPTZScanPendingQueue fuel dev now).map Prod.fst = some dev1 →
      QueuedBandsOrdered dev1 := by
    intro hd
    cases hscan : CameraESPTZScanPendingQueue fuel dev now with
    | none => simp [hscan] at hd
    | some res =>
      obtain ⟨dev2, Status2⟩ := res
      simp only [hscan, Option.map_some', Option.some.injEq] at hd
      subst hd
      exact scan_preserves_bands fuel dev now dev2 Status2 hinv hscan
  cases op with
  | AddReadRequest req fw => exact addReadRequest_preserves_bands fuel dev req fw now dev1 hinv hrun
  | SetTemperature req =>
    obtain rfl := Option.some.inj hrun
    intro r hr
    rw [(setTemperature_frame dev req).2.2.1] at hr
    exact hinv r hr
  | CameraOnNotification h =>
    obtain rfl := Option.some.inj hrun
    exact hinv
  | CameraOffNotification h =>
    obtain rfl := Option.some.inj hrun
    exact hinv
  | ExpiredRequestTimer => exact hwrap hrun
  | InterruptWorker => exact hwrap hrun

theorem runOperations_preserves_bands (fuel : Nat) :
    ∀ (ops : List (OPERATION × Int)) (dev final : DEVICE), QueuedBandsOrdered dev →
      runOperations fuel dev ops = some final → QueuedBandsOrdered final := by
  intro ops
  induction ops with
  | nil =>
    intro dev final hinv hrun
    obtain rfl := Option.some.inj hrun
    exact hinv
  | cons head rest ih =>
    intro dev final hinv hrun
    obtain ⟨op, now⟩ := head
    unfold runOperations at hrun
    cases hstep : runOperation fuel dev now op with
    | none => simp [hstep] at hrun
    | some dev1 =>
      simp only [hstep] at hrun
      exact ih dev1 final (runOperation_preserves_bands fuel dev now op dev1 hinv hstep) hrun

/-! ## Claim C21 -/

/-- C21: for every band with low >= high the satisfaction predicate is true,
for every reading, due time and current time; so a well-formed submission
(12-byte input, 4-byte output) with such a band is completed by
CameraESPTZAddReadRequest on the fast path with STATUS_SUCCESS, 4 bytes and the
current reading, whatever its timeout, and the pending queue and the timers are
unchanged; and in every state reached from the created device (or from any
state whose queued bands have low < high) by any sequence of operations, every
request in the pending queue has low < high, for the band stored in its context
and the band it was submitted with alike. -/
theorem C21_inverted_band_never_queued (fuel : Nat) (dev : DEVICE) (req : WDFREQUEST)
    (fw : FRAMEWORK_RESULTS) (now : Int) (r low high : Nat) (d t : Int)
    (ops : List (OPERATION × Int)) (final : DEVICE) :
    (low ≥ high → CameraESPTZAreConstraintsSatisfied r low high d t = true) ∧
    (req.InputBufferLength = SIZEOF_THERMAL_WAIT_READ → req.OutputBufferLength = SIZEOF_ULONG →
      req.InputBuffer.LowTemperature ≥ req.InputBuffer.HighTemperature →
      ∃ dev1, CameraESPTZAddReadRequest fuel dev req fw now = some dev1 ∧
        dev1.Completed = dev.Completed ++
          [⟨req.Handle, STATUS_SUCCESS, 4, some dev.Sensor.Temperature⟩] ∧
        dev1.PendingRequestQueue = dev.PendingRequestQueue ∧
        dev1.Timers = dev.Timers ∧
        dev1.Sensor = dev.Sensor) ∧
    (runOperations fuel createdDevice ops = some final →
      ∀ q ∈ final.PendingRequestQueue,
        q.Context.LowTemperature < q.Context.HighTemperature ∧
        q.InputBuffer.LowTemperature < q.InputBuffer.HighTemperature) ∧
    (QueuedBandsOrdered dev → runOperations fuel dev ops = some final →
      ∀ q ∈ final.PendingRequestQueue,
        q.Context.LowTemperature < q.Context.HighTemperature ∧
        q.InputBuffer.LowTemperature < q.InputBuffer.HighTemperature) := by
  have hfinal : ∀ start : DEVICE, QueuedBandsOrdered start →
      runOperations fuel start ops = some final →
      ∀ q ∈ final.PendingRequestQueue,
        q.Context.LowTemperature < q.Context.HighTemperature ∧
        q.InputBuffer.LowTemperature < q.InputBuffer.HighTemperature := by
    intro start hinv hrun q hq
    obtain ⟨h1, h2, h3⟩ := runOperations_preserves_bands fuel ops start final hinv hrun q hq
    exact ⟨h1, by omega⟩
  refine ⟨fun hband => satisfied_of_inverted r low high d t hband, ?_, ?_, hfinal dev⟩
  · intro hin hout hband
    have hsat := satisfied_of_inverted dev.Sensor.Temperature req.InputBuffer.LowTemperature
      req.InputBuffer.HighTemperature (requestExpirationTime req.InputBuffer now) now hband
    refine ⟨_, addReadRequest_fast_path fuel dev req fw now hin hsat, ?_, rfl, rfl, rfl⟩
    have h4 : req.OutputBufferLength = 4 := hout
    simp [retireCompletion, SIZEOF_ULONG, h4]
  · exact hfinal createdDevice (fun q hq => by simp [createdDevice] at hq)

/-- Witness of C21: on the created device the band [2900,3000] is queued and the
band with low 3000 above high 2900 is completed at once with the reading 2940;
the one queued request has low < high. -/
theorem C21_inverted_band_never_queued_witness :
    runOperations 3 createdDevice sampleRun =
      some ⟨[admitted (submission 7 INFINITE_TIMEOUT 2900 3000) 1000], ⟨2900, 3000, 2940⟩,
        [⟨8, STATUS_SUCCESS, 4, some 2940⟩], [], 0⟩ ∧
    (admitted (submission 7 INFINITE_TIMEOUT 2900 3000) 1000).Context.LowTemperature <
      (admitted (submission 7 INFINITE_TIMEOUT 2900 3000) 1000).Context.HighTemperature :=
  ⟨by decide,
    ((C21_inverted_band_never_queued 3 createdDevice (submission 8 5 3000 2900) allSucceed 1000
      2940 3000 2900 0 0 sampleRun
      ⟨[admitted (submission 7 INFINITE_TIMEOUT 2900 3000) 1000], ⟨2900, 3000, 2940⟩,
        [⟨8, STATUS_SUCCESS, 4, some 2940⟩], [], 0⟩).2.2.1 (by decide)
      (admitted (submission 7 INFINITE_TIMEOUT 2900 3000) 1000)
      (List.mem_singleton_self _)).1⟩

/-! ## The clock read anew at every test -/

/-- When every reading is the same, the clocked loop is the loop. -/
theorem scanLoopClocked_const (T : Nat) (now : Int) :
    ∀ (fuel k : Nat) (dev : DEVICE) (Status : NTSTATUS) (cur : Option WDFREQUEST) (lb ub : Nat),
      scanLoopClocked T (fun _ => now) fuel k dev Status cur lb ub =
        scanLoop T now fuel dev Status cur lb ub := by
  intro fuel
  induction fuel with
  | zero =>
    intro k dev Status cur lb ub
    rfl
  | succ fuel ih =>
    intro k dev Status cur lb ub
    unfold scanLoopClocked scanLoop
    by_cases hsucc : NT_SUCCESS Status = true
    · rw [if_pos hsucc, if_pos hsucc]
      cases cur with
      | none => rfl
      | some last =>
        dsimp only
        split
        · exact ih _ _ _ _ _ _
        · exact ih _ _ _ _ _ _
    · rw [if_neg hsucc, if_neg hsucc]

/-- When every reading is the same, the clocked scan pass is the scan pass. -/
theorem scanClocked_const (fuel : Nat) (dev : DEVICE) (now : Int) :
    CameraESPTZScanPendingQueueClocked fuel dev (fun _ => now) =
      CameraESPTZScanPendingQueue fuel dev now := by
  unfold CameraESPTZScanPendingQueueClocked CameraESPTZScanPendingQueue
  simp only [scanLoopClocked_const]

/-- When every reading is the same, the clocked admission is the admission. -/
theorem addReadRequestClocked_const (fuel : Nat) (dev : DEVICE) (req : WDFREQUEST)
    (fw : FRAMEWORK_RESULTS) (now : Int) :
    CameraESPTZAddReadRequestClocked fuel dev req fw now now (fun _ => now) =
      CameraESPTZAddReadRequest fuel dev req fw now := by
  unfold CameraESPTZAddReadRequestClocked CameraESPTZAddReadRequest
  simp only [scanClocked_const]

end Icaros
